import Mathlib

/-!
Verification of the pdf-compressor-rust image recompression core.

The definitions below are a shallow embedding of `src/lib.rs` and the driver
loop of `src/main.rs` / `compress_pdf`.  External codecs (lopdf's stream
decompressor, zlib, the JPEG encoder, the generic image loader and the
Lanczos resizer) are modelled as fields of an abstract `Codec` record; the
pure data manipulation (dictionaries, the object graph, pixel-buffer
plumbing, the CMYK fallback conversion in exact binary32 arithmetic) is
embedded concretely.
-/

namespace PdfC

/-- Byte strings: PDF names, keys and stream payloads, one `Nat` per byte. -/
abbrev Bytes := List Nat

/-- Object identifier: numeric id paired with a generation number. -/
abbrev ObjectId := Nat × Nat

/-- The lopdf object variant.  `real` carries no payload because the core
never reads a Real's value.  Dictionaries are ordered association lists,
matching lopdf's insertion-ordered `Dictionary`. -/
inductive Object : Type where
  | null
  | boolean (b : Bool)
  | integer (i : Int)
  | real
  | string (s : Bytes)
  | name (n : Bytes)
  | array (elems : List Object)
  | dict (entries : List (Bytes × Object))
  | stream (sdict : List (Bytes × Object)) (content : Bytes)
  | reference (id : ObjectId)

/-- A stream dictionary: ordered `Name → Object` association list. -/
abbrev Dict := List (Bytes × Object)

/-- ASCII bytes of a literal key or name. -/
def bs (s : String) : Bytes := s.toList.map Char.toNat

/-- Lookup in a dictionary (`Dictionary::get`, first matching key). -/
def dictGet (d : Dict) (k : Bytes) : Option Object :=
  (d.find? fun p => p.1 == k).map Prod.snd

/-- Insert-or-replace (`Dictionary::set`): update the entry in place if the
key is present, otherwise append. -/
def dictSet : Dict → Bytes → Object → Dict
  | [], k, v => [(k, v)]
  | p :: t, k, v => if p.1 == k then (k, v) :: t else p :: dictSet t k v

/-- Remove a key (`Dictionary::remove`). -/
def dictRemove : Dict → Bytes → Dict
  | [], _ => []
  | p :: t, k => if p.1 == k then dictRemove t k else p :: dictRemove t k

/-- The document object graph: identifier-keyed map, modelled as an
association list snapshot of lopdf's `BTreeMap`. -/
structure Document : Type where
  objects : List (ObjectId × Object)

/-- Lookup of an object by identifier (`doc.objects.get`). -/
def Document.get (doc : Document) (id : ObjectId) : Option Object :=
  (doc.objects.find? fun p => p.1 == id).map Prod.snd

/-- In-place mutation of the stream stored at `id`
(`if let Some(Object::Stream(stream)) = doc.objects.get_mut(&id) { ... }`):
non-stream entries and other identifiers are untouched. -/
def modifyEntries (id : ObjectId) (f : Dict → Bytes → Dict × Bytes) :
    List (ObjectId × Object) → List (ObjectId × Object)
  | [] => []
  | p :: t =>
    if p.1 == id then
      (match p.2 with
       | Object.stream d c => (p.1, Object.stream (f d c).1 (f d c).2)
       | o => (p.1, o)) :: t
    else p :: modifyEntries id f t

/-- Stream mutation lifted to the document. -/
def Document.modifyStream (doc : Document) (id : ObjectId)
    (f : Dict → Bytes → Dict × Bytes) : Document :=
  ⟨modifyEntries id f doc.objects⟩

/-! ### Pixel buffers (the `image` crate types used by the core) -/

/-- A decoded pixel buffer: `DynamicImage` restricted to the channel layouts
the core produces (Luma8 / Rgb8 / Rgba8), with row-major packed samples. -/
inductive Img : Type where
  | luma (w h : Nat) (data : Bytes)
  | rgb (w h : Nat) (data : Bytes)
  | rgba (w h : Nat) (data : Bytes)

def Img.width : Img → Nat
  | .luma w _ _ => w
  | .rgb w _ _ => w
  | .rgba w _ _ => w

def Img.height : Img → Nat
  | .luma _ h _ => h
  | .rgb _ h _ => h
  | .rgba _ h _ => h

def Img.channels : Img → Nat
  | .luma _ _ _ => 1
  | .rgb _ _ _ => 3
  | .rgba _ _ _ => 4

def Img.data : Img → Bytes
  | .luma _ _ d => d
  | .rgb _ _ d => d
  | .rgba _ _ d => d

/-- Well-formedness: the sample buffer is exactly filled. -/
def Img.wf (i : Img) : Prop := i.data.length = i.width * i.height * i.channels

/-- Luma8 samples expanded to RGBA (`to_rgba8` on `ImageLuma8`). -/
def lumaToRgba : Bytes → Bytes
  | [] => []
  | l :: rest => l :: l :: l :: 255 :: lumaToRgba rest

/-- Rgb8 samples expanded to RGBA (`to_rgba8` on `ImageRgb8`). -/
def rgbToRgba : Bytes → Bytes
  | r :: g :: b :: rest => r :: g :: b :: 255 :: rgbToRgba rest
  | _ => []

/-- `DynamicImage::to_rgba8`. -/
def Img.toRgba8 : Img → Bytes
  | .luma _ _ d => lumaToRgba d
  | .rgb _ _ d => rgbToRgba d
  | .rgba _ _ d => d

/-- Integer sRGB luma approximation used by the `image` crate. -/
def lumaOf (r g b : Nat) : Nat := (2126 * r + 7152 * g + 722 * b) / 10000

def rgbToLumaBytes : Bytes → Bytes
  | r :: g :: b :: rest => lumaOf r g b :: rgbToLumaBytes rest
  | _ => []

def rgbaToLumaBytes : Bytes → Bytes
  | r :: g :: b :: _ :: rest => lumaOf r g b :: rgbaToLumaBytes rest
  | _ => []

/-- `DynamicImage::to_luma8`. -/
def Img.toLuma8 : Img → Img
  | .luma w h d => .luma w h d
  | .rgb w h d => .luma w h (rgbToLumaBytes d)
  | .rgba w h d => .luma w h (rgbaToLumaBytes d)

def lumaToRgbBytes : Bytes → Bytes
  | [] => []
  | l :: rest => l :: l :: l :: lumaToRgbBytes rest

def rgbaToRgbBytes : Bytes → Bytes
  | r :: g :: b :: _ :: rest => r :: g :: b :: rgbaToRgbBytes rest
  | _ => []

/-- `DynamicImage::to_rgb8` (alpha dropped without blending). -/
def Img.toRgb8 : Img → Img
  | .luma w h d => .rgb w h (lumaToRgbBytes d)
  | .rgb w h d => .rgb w h d
  | .rgba w h d => .rgb w h (rgbaToRgbBytes d)

/-- `ImageBuffer::from_raw`: succeeds when the container holds at least
`w*h*ch` samples; the buffer view covers exactly the first `w*h*ch`. -/
def fromRawData (w h ch : Nat) (data : Bytes) : Option Bytes :=
  if w * h * ch ≤ data.length then some (data.take (w * h * ch)) else none

/-! ### Exact binary32 arithmetic for the CMYK fallback

The CMYK→RGB fallback in `process_image_object` computes in `f32`.  A
binary32 value arising there is a nonnegative dyadic rational `n / 2^d`
with a 24-bit significand; `rnd24` is IEEE round-to-nearest, ties to even,
restricted to that normal range (no value in this computation is subnormal
or overflows). -/

/-- Strictness combinator: semantically `f n` (see `forceN_eq` below), but
the `Nat.casesOn` forces `n` to a literal before `f` consumes it, so that
kernel reduction of the exhaustive check below stays linear. -/
def forceN {α : Sort u} (n : Nat) (f : Nat → α) : α :=
  Nat.casesOn n (f 0) fun m => f (m + 1)

/-- Floor of the base-2 logarithm (0 at 0), by a definitionally reducing
comparison ladder; agrees with `Nat.log2` below `2^64`. -/
def flog2 (n : Nat) : Nat :=
  let p1 := if 4294967296 ≤ n then (n / 4294967296, 32) else (n, 0)
  let p2 := if 65536 ≤ p1.1 then (p1.1 / 65536, p1.2 + 16) else p1
  let p3 := if 256 ≤ p2.1 then (p2.1 / 256, p2.2 + 8) else p2
  let p4 := if 16 ≤ p3.1 then (p3.1 / 16, p3.2 + 4) else p3
  let p5 := if 4 ≤ p4.1 then (p4.1 / 4, p4.2 + 2) else p4
  if 2 ≤ p5.1 then p5.2 + 1 else p5.2

/-- Round the dyadic rational `n / 2^d` to a 24-bit significand,
round-to-nearest ties-to-even, via the branchless half-adjust
`(n + half - 1 + lsb (n / 2^sh)) / 2^sh`. -/
def rnd24 (n d : Nat) : Nat × Nat :=
  if n < 16777216 then (n, d)
  else
    forceN (flog2 (n / 16777216) + 1) fun sh =>
    forceN (2 ^ sh) fun p =>
    ((n + p / 2 - 1 + n / p % 2) / p, d - sh)

/-- `a as f32 / 255.0` for a byte `a`: correctly rounded binary32 quotient,
as a dyadic pair. -/
def divByte255 (a : Nat) : Nat × Nat :=
  if a = 0 then (0, 0)
  else
    forceN (31 - flog2 a) fun e0 =>
    forceN (a * 2 ^ e0) fun x =>
    forceN (if x < 255 * 2 ^ 23 then e0 + 1
            else if 255 * 2 ^ 24 ≤ x then e0 - 1 else e0) fun e =>
    forceN (a * 2 ^ e) fun num =>
    rnd24 (if 255 < 2 * (num % 255) then num / 255 + 1 else num / 255) e

/-- `1.0 - x` in binary32 (exact difference, then rounded). -/
def oneSub32 : Nat × Nat → Nat × Nat
  | (n, d) => forceN n fun n => forceN d fun d => rnd24 (2 ^ d - n) d

/-- Binary32 product of two dyadic values. -/
def mulF32 : Nat × Nat → Nat × Nat → Nat × Nat
  | (n1, d1), (n2, d2) =>
      forceN (n1 * n2) fun n => forceN (d1 + d2) fun d => rnd24 n d

/-- Binary32 product with the constant `255.0`. -/
def mulConst255 : Nat × Nat → Nat × Nat
  | (n, d) => forceN (255 * n) fun n => forceN d fun d => rnd24 n d

/-- `as u8` on a nonnegative f32: truncation toward zero with saturation. -/
def truncByte : Nat × Nat → Nat
  | (n, d) => forceN n fun n => forceN d fun d => min (n / 2 ^ d) 255

/-- `1.0 - a as f32 / 255.0` in binary32: the per-byte factor the fallback
computes for each of C, M, Y and K. -/
def mkU (a : Nat) : Nat × Nat := oneSub32 (divByte255 a)

/-- `(u * v * 255.0) as u8` in binary32. -/
def chanOf (u v : Nat × Nat) : Nat := truncByte (mulConst255 (mulF32 u v))

/-- One output channel of the fallback conversion:
`((1.0 - a/255.0) * (1.0 - k/255.0) * 255.0) as u8`, all in binary32. -/
def cmykChannel (a k : Nat) : Nat := chanOf (mkU a) (mkU k)

/-- The `content.chunks(4).flat_map(...)` fallback: packed CMYK quadruplets
to packed RGB; a short trailing chunk yields `[0,0,0]`. -/
def cmykToRgb : Bytes → Bytes
  | c :: m :: y :: k :: rest =>
      cmykChannel c k :: cmykChannel m k :: cmykChannel y k :: cmykToRgb rest
  | [] => []
  | _ => [0, 0, 0]

/-! ### Exhaustive comparison of the binary32 channel against the exact
formula.  The walkers are written as raw `List.rec` applications so that
the 65536-case check reduces efficiently inside the kernel. -/

/-- The 256 per-byte factors `1 - a/255` in binary32. -/
def uList : List (Nat × Nat) := (List.range 256).map mkU

/-- The same 256 factors as an explicit literal table (verified against
`uList` below), so that the exhaustive check reduces cheaply. -/
def uTable : List (Nat × Nat) :=
  [(1, 0), (16711423, 24), (16645630, 24), (16579837, 24), (16514044, 24), 
   (16448251, 24), (16382458, 24), (16316665, 24), (16250872, 24), 
   (16185079, 24), (16119286, 24), (16053493, 24), (15987700, 24), 
   (15921907, 24), (15856114, 24), (15790321, 24), (15724528, 24), 
   (15658735, 24), (15592942, 24), (15527149, 24), (15461356, 24), 
   (15395563, 24), (15329770, 24), (15263977, 24), (15198184, 24), 
   (15132391, 24), (15066598, 24), (15000805, 24), (14935012, 24), 
   (14869219, 24), (14803426, 24), (14737633, 24), (14671840, 24), 
   (14606047, 24), (14540254, 24), (14474461, 24), (14408668, 24), 
   (14342875, 24), (14277082, 24), (14211289, 24), (14145496, 24), 
   (14079703, 24), (14013910, 24), (13948117, 24), (13882324, 24), 
   (13816531, 24), (13750738, 24), (13684945, 24), (13619152, 24), 
   (13553359, 24), (13487566, 24), (13421773, 24), (13355980, 24), 
   (13290187, 24), (13224394, 24), (13158601, 24), (13092808, 24), 
   (13027015, 24), (12961222, 24), (12895429, 24), (12829636, 24), 
   (12763843, 24), (12698050, 24), (12632257, 24), (12566464, 24), 
   (12500670, 24), (12434878, 24), (12369084, 24), (12303292, 24), 
   (12237498, 24), (12171706, 24), (12105912, 24), (12040120, 24), 
   (11974326, 24), (11908534, 24), (11842740, 24), (11776948, 24), 
   (11711154, 24), (11645362, 24), (11579568, 24), (11513776, 24), 
   (11447982, 24), (11382190, 24), (11316396, 24), (11250604, 24), 
   (11184810, 24), (11119018, 24), (11053224, 24), (10987432, 24), 
   (10921638, 24), (10855846, 24), (10790052, 24), (10724260, 24), 
   (10658466, 24), (10592674, 24), (10526880, 24), (10461088, 24), 
   (10395294, 24), (10329502, 24), (10263708, 24), (10197916, 24), 
   (10132122, 24), (10066330, 24), (10000536, 24), (9934744, 24), 
   (9868950, 24), (9803158, 24), (9737364, 24), (9671572, 24), 
   (9605778, 24), (9539986, 24), (9474192, 24), (9408400, 24), 
   (9342606, 24), (9276814, 24), (9211020, 24), (9145228, 24), 
   (9079434, 24), (9013642, 24), (8947848, 24), (8882056, 24), 
   (8816262, 24), (8750470, 24), (8684676, 24), (8618884, 24), 
   (8553090, 24), (8487298, 24), (8421504, 24), (8355711, 24), 
   (8289918, 24), (8224125, 24), (8158332, 24), (8092539, 24), 
   (8026746, 24), (7960953, 24), (7895160, 24), (7829367, 24), 
   (7763574, 24), (7697781, 24), (7631988, 24), (7566195, 24), 
   (7500402, 24), (7434609, 24), (7368816, 24), (7303023, 24), 
   (7237230, 24), (7171437, 24), (7105644, 24), (7039851, 24), 
   (6974058, 24), (6908265, 24), (6842472, 24), (6776679, 24), 
   (6710886, 24), (6645093, 24), (6579300, 24), (6513507, 24), 
   (6447714, 24), (6381921, 24), (6316128, 24), (6250335, 24), 
   (6184542, 24), (6118749, 24), (6052956, 24), (5987163, 24), 
   (5921370, 24), (5855577, 24), (5789784, 24), (5723991, 24), 
   (5658198, 24), (5592405, 24), (5526612, 24), (5460819, 24), 
   (5395026, 24), (5329233, 24), (5263440, 24), (5197647, 24), 
   (5131854, 24), (5066061, 24), (5000268, 24), (4934475, 24), 
   (4868682, 24), (4802889, 24), (4737096, 24), (4671303, 24), 
   (4605510, 24), (4539717, 24), (4473924, 24), (4408131, 24), 
   (4342338, 24), (4276545, 24), (4210752, 24), (4144959, 24), 
   (4079166, 24), (4013373, 24), (3947580, 24), (3881787, 24), 
   (3815994, 24), (3750201, 24), (3684408, 24), (3618615, 24), 
   (3552822, 24), (3487029, 24), (3421236, 24), (3355443, 24), 
   (3289650, 24), (3223857, 24), (3158064, 24), (3092271, 24), 
   (3026478, 24), (2960685, 24), (2894892, 24), (2829099, 24), 
   (2763306, 24), (2697513, 24), (2631720, 24), (2565927, 24), 
   (2500134, 24), (2434341, 24), (2368548, 24), (2302755, 24), 
   (2236962, 24), (2171169, 24), (2105376, 24), (2039583, 24), 
   (1973790, 24), (1907997, 24), (1842204, 24), (1776411, 24), 
   (1710618, 24), (1644825, 24), (1579032, 24), (1513239, 24), 
   (1447446, 24), (1381653, 24), (1315860, 24), (1250067, 24), 
   (1184274, 24), (1118481, 24), (1052688, 24), (986895, 24), (921102, 24), 
   (855309, 24), (789516, 24), (723723, 24), (657930, 24), (592137, 24), 
   (526344, 24), (460551, 24), (394758, 24), (328965, 24), (263172, 24), 
   (197379, 24), (131586, 24), (65793, 24), (0, 23)]

/-- One pair check: the binary32 channel for input bytes `(a, k)` sits
within one below the exactly-truncated product `(255-a)*(255-k)/255`. -/
def pairOk2 (a k : Nat) (u v : Nat × Nat) : Bool :=
  forceN ((255 - a) * (255 - k) / 255) fun e =>
  forceN (chanOf u v) fun o =>
  (e - 1).ble o && o.ble e

/-- Check one row: all `k` along `vs`, starting at index `k0`.  Written as
a raw `List.rec` so the kernel evaluates it without recursor overhead. -/
def rowWalk (a : Nat) (u : Nat × Nat) (vs : List (Nat × Nat)) : Nat → Bool :=
  List.rec (motive := fun _ => Nat → Bool) (fun _ => true)
    (fun v _ ih k => pairOk2 a k u v && ih (k + 1)) vs

/-- Check the `n` rows `s, s+1, …, s+n-1`, each against the whole table. -/
def rowsOkFrom (s : Nat) : Nat → Bool :=
  Nat.rec (motive := fun _ => Bool) true
    fun i ih => rowWalk (s + i) (mkU (s + i)) uTable 0 && ih

/-! ### External codecs -/

/-- The external codecs the core calls out to, kept abstract: lopdf's
filter-chain decompressor (`Stream::decompressed_content`), raw zlib
inflate/deflate (`flate2`), the JPEG encoder, the generic image-format
loader (`image::load_from_memory`) and the Lanczos3 resizer.  Deflate to an
in-memory `Vec` sink is total: the `io::Write` impl for `Vec<u8>` never
errors. -/
structure Codec : Type where
  primaryDecompress : Dict → Bytes → Option Bytes
  inflate : Bytes → Option Bytes
  deflate : Bytes → Bytes
  jpegEncodeRgb : Nat → Nat → Nat → Bytes → Option Bytes
  jpegEncodeImage : Nat → Img → Option Bytes
  loadFromMemory : Bytes → Option Img
  resizeImg : Img → Nat → Img

/-- Facts about the external codecs used by the theorems: zlib round-trips
losslessly, and the loader and resizer produce exactly-filled buffers. -/
structure CodecWF (C : Codec) : Prop where
  inflate_deflate : ∀ b, C.inflate (C.deflate b) = some b
  load_wf : ∀ b i, C.loadFromMemory b = some i → i.wf
  resize_wf : ∀ i m, i.wf → (C.resizeImg i m).wf

/-! ### The stream decoder and the per-image pipeline (`src/lib.rs`) -/

/-- `decompress_stream` (lib.rs 10–33): primary decompressor first; on
failure, a manual zlib inflate of the raw bytes only when the `Filter`
entry is exactly the Name `FlateDecode`; an error otherwise. -/
def decompress_stream (C : Codec) (sdict : Dict) (content : Bytes) :
    Except String Bytes :=
  match C.primaryDecompress sdict content with
  | some c => .ok c
  | none =>
    match dictGet sdict (bs "Filter") with
    | some (Object.name n) =>
      if n == bs "FlateDecode" then
        match C.inflate content with
        | some b => .ok b
        | none => .error "Manual zlib failed"
      else .error "Decompression failed (not Flate)"
    | _ => .error "Decompression failed (Filter type)"

/-- Whether the filter entry names `DCTDecode` (single Name, or any element
of a filter Array), lib.rs 142–149. -/
def isJpegFilter : Option Object → Bool
  | some (Object.name n) => n == bs "DCTDecode"
  | some (Object.array arr) =>
      arr.any fun o =>
        match o with
        | Object.name n => n == bs "DCTDecode"
        | _ => false
  | _ => false

/-- Content extraction (lib.rs 155–165): JPEG streams fall back to their
raw bytes when the primary decompressor fails; everything else goes through
`decompress_stream`. -/
def extractContent (C : Codec) (sdict : Dict) (content : Bytes) :
    Except String Bytes :=
  if isJpegFilter (dictGet sdict (bs "Filter")) then
    .ok ((C.primaryDecompress sdict content).getD content)
  else decompress_stream C sdict content

/-- `Object::as_i64`. -/
def asI64 : Object → Option Int
  | Object.integer i => some i
  | _ => none

/-- `dict.get(k).and_then(as_i64).unwrap_or(0) as u32`: the `i64 → u32`
cast wraps modulo `2^32`. -/
def dimOf (sdict : Dict) (k : Bytes) : Nat :=
  ((((dictGet sdict k).bind asI64).getD 0) % (2 ^ 32 : Int)).toNat

/-- The `ColorSpace` entry when it is a direct Name (lib.rs 170–173). -/
def colorSpaceOf (sdict : Dict) : Option Bytes :=
  match dictGet sdict (bs "ColorSpace") with
  | some (Object.name n) => some n
  | _ => none

/-- Component-count heuristic (lib.rs 176–197).  The buffer-length
comparisons happen after `u32` multiplication, hence the `% 2^32`. -/
def componentCount (cs : Option Bytes) (w h len : Nat) : Nat :=
  match cs with
  | some n =>
    if n == bs "DeviceGray" then 1
    else if n == bs "DeviceRGB" then 3
    else if n == bs "DeviceCMYK" then 4
    else 3
  | none =>
    if len = w * h % 2 ^ 32 then 1
    else if len = w * h * 3 % 2 ^ 32 then 3
    else if len = w * h * 4 % 2 ^ 32 then 4
    else 3

/-- Resolution of one array of filter/parm entries (lib.rs 62–82): each
Reference that resolves is replaced; the flag records whether anything
changed. -/
def resolveArr (doc : Document) : List Object → List Object × Bool
  | [] => ([], false)
  | x :: xs =>
    let r := resolveArr doc xs
    match x with
    | Object.reference id =>
      match doc.get id with
      | some o => (o :: r.1, true)
      | none => (x :: r.1, r.2)
    | _ => (x :: r.1, r.2)

/-- Resolution of a single dictionary entry (lib.rs 59–117): a direct
Reference resolves to the referenced object (Null when absent); an Array is
rebuilt only if at least one element resolved. -/
def resolveEntry (doc : Document) (sdict : Dict) (k : Bytes) : Option Object :=
  match dictGet sdict k with
  | some (Object.reference id) => some ((doc.get id).getD Object.null)
  | some (Object.array arr) =>
    let r := resolveArr doc arr
    if r.2 then some (Object.array r.1) else none
  | _ => none

/-- Resolved value of the image stream's entry `k`, computed against the
given graph. -/
def resolveOf (doc : Document) (oid : ObjectId) (k : Bytes) : Option Object :=
  match doc.get oid with
  | some (Object.stream d _) => resolveEntry doc d k
  | _ => none

/-- Write-back of one resolved entry (`stream.dict.set(k, val)`), a no-op
when nothing resolved. -/
def applyEntry (doc : Document) (oid : ObjectId) (k : Bytes) :
    Option Object → Document
  | some v => doc.modifyStream oid (fun d c => (dictSet d k v, c))
  | none => doc

/-- The indirect-reference resolver (lib.rs 59–129): both resolved values
are computed against the original graph, then written back in order. -/
def resolveStage (doc : Document) (oid : ObjectId) : Document :=
  let rf := resolveOf doc oid (bs "Filter")
  let rp := resolveOf doc oid (bs "DecodeParms")
  applyEntry (applyEntry doc oid (bs "Filter") rf) oid (bs "DecodeParms") rp

/-- Extraction stage (lib.rs 132–200): decode the payload, read the
dimensions and color space, run the component heuristic. -/
def extractStage (C : Codec) (doc : Document) (oid : ObjectId) :
    Except String (Nat × Nat × Nat × Bytes × List String) :=
  match doc.get oid with
  | some (Object.stream sdict scontent) =>
    let acts : List String :=
      if isJpegFilter (dictGet sdict (bs "Filter")) then ["was JPEG"] else []
    match extractContent C sdict scontent with
    | .error e => .error e
    | .ok content =>
      let w := dimOf sdict (bs "Width")
      let h := dimOf sdict (bs "Height")
      .ok (w, h, componentCount (colorSpaceOf sdict) w h content.length,
           content, acts)
  | _ => .error "Object not a stream"

/-- Sample interpreter (lib.rs 203–248): materialize the canonical pixel
buffer from the component count. -/
def decodeStage (C : Codec) (components w h : Nat) (content : Bytes) :
    Except String (Img × List String) :=
  if components = 0 then
    match C.loadFromMemory content with
    | some i => .ok (i, [])
    | none => .error "Failed to load image from memory"
  else
    match components with
    | 1 =>
      match fromRawData w h 1 content with
      | some d => .ok (Img.luma w h d, [])
      | none =>
        match C.loadFromMemory content with
        | some i => .ok (i.toLuma8, [])
        | none => .error "Failed Gray"
    | 3 =>
      match fromRawData w h 3 content with
      | some d => .ok (Img.rgb w h d, [])
      | none =>
        match C.loadFromMemory content with
        | some i => .ok (i.toRgb8, [])
        | none => .error "Failed RGB"
    | 4 =>
      match C.loadFromMemory content with
      | some i => .ok (i, ["CMYK->RGB"])
      | none =>
        match fromRawData w h 3 (cmykToRgb content) with
        | some d => .ok (Img.rgb w h d, ["CMYK->RGB"])
        | none => .error "Failed CMYK->RGB"
    | c => .error ("Unsupported components " ++ toString c)

/-- Alpha substitution of the mask-application loop (lib.rs 288–291):
pixel `i` of a `w`-wide RGBA buffer takes the mask sample at
`(i % w, i / w)` in a `mw`-wide mask.  The source indexes the mask buffer
directly (and panics if the image is wider or taller than the mask, which
can only happen when a generic-decoder fallback produced an image whose
dimensions differ from the dictionary's); out-of-range access is modelled
as sample 0. -/
def applyMaskAux (mask : Bytes) (mw w : Nat) : Nat → Bytes → Bytes
  | i, r :: g :: b :: _ :: rest =>
      r :: g :: b :: (mask.getD (i / w * mw + i % w) 0) ::
        applyMaskAux mask mw w (i + 1) rest
  | _, other => other

/-- The `SMask` reference of a stream dictionary (lib.rs 50–53). -/
def smaskRefOf (sdict : Dict) : Option ObjectId :=
  match dictGet sdict (bs "SMask") with
  | some (Object.reference id) => some id
  | _ => none

/-- Mask compositor (lib.rs 258–295): decode the mask stream; merge it as
the alpha channel only when its dictionary dimensions equal the image's
dictionary dimensions; otherwise leave the buffer untouched. -/
def maskStage (C : Codec) (doc : Document) (smaskId : Option ObjectId)
    (width height : Nat) (img : Img) : Except String (Img × List String) :=
  match smaskId with
  | none => .ok (img, [])
  | some sid =>
    match doc.get sid with
    | some (Object.stream mdict mcontent) =>
      match decompress_stream C mdict mcontent with
      | .error e => .error ("Failed to decompress mask: " ++ e)
      | .ok mc =>
        let mw := dimOf mdict (bs "Width")
        let mh := dimOf mdict (bs "Height")
        if mw = width ∧ mh = height then
          match fromRawData mw mh 1 mc with
          | none => .error "Failed Mask"
          | some md =>
            .ok (Img.rgba img.width img.height
                   (applyMaskAux md mw img.width 0 img.toRgba8),
                 ["applied SMask"])
        else .ok (img, ["applied SMask"])
    | _ => .error "SMask not a stream"

/-- Resizer (lib.rs 298–309): downscale through the abstract Lanczos3
resizer when either dimension exceeds the bound. -/
def resizeStage (C : Codec) (maxDim : Nat) (img : Img) : Img × List String :=
  if maxDim < img.width ∨ maxDim < img.height then
    let ni := C.resizeImg img maxDim
    (ni, ["resize " ++ toString img.width ++ "x" ++ toString img.height ++
          " -> " ++ toString ni.width ++ "x" ++ toString ni.height])
  else (img, ["keep dims " ++ toString img.width ++ "x" ++ toString img.height])

/-- RGB plane of a packed RGBA buffer (lib.rs 330–335). -/
def rgbaToRgbPlane : Bytes → Bytes
  | r :: g :: b :: _ :: rest => r :: g :: b :: rgbaToRgbPlane rest
  | _ => []

/-- Alpha plane of a packed RGBA buffer (lib.rs 330–335). -/
def rgbaToAlphaPlane : Bytes → Bytes
  | _ :: _ :: _ :: a :: rest => a :: rgbaToAlphaPlane rest
  | _ => []

/-- Dictionary rewrite of the image stream in the opaque path
(lib.rs 393–407): set Length/Filter/Width/Height/ColorSpace/
BitsPerComponent, remove DecodeParms — and nothing else. -/
def opaqueDictT (d : Dict) (len : Int) (w h : Nat) : Dict :=
  dictRemove (dictSet (dictSet (dictSet (dictSet (dictSet (dictSet d
    (bs "Length") (Object.integer len))
    (bs "Filter") (Object.name (bs "DCTDecode")))
    (bs "Width") (Object.integer w))
    (bs "Height") (Object.integer h))
    (bs "ColorSpace") (Object.name (bs "DeviceRGB")))
    (bs "BitsPerComponent") (Object.integer 8))
    (bs "DecodeParms")

/-- Dictionary rewrite of the image stream in the transparent path
(lib.rs 342–357): the opaque rewrite plus removal of Decode. -/
def imgDictT (d : Dict) (len : Int) (w h : Nat) : Dict :=
  dictRemove (opaqueDictT d len w h) (bs "Decode")

/-- Dictionary rewrite of the mask stream in the transparent path
(lib.rs 367–383): Filter/Width/Height/ColorSpace/BitsPerComponent set,
DecodeParms and Decode removed, Length set last. -/
def maskDictT (d : Dict) (len : Int) (w h : Nat) : Dict :=
  dictSet (dictRemove (dictRemove (dictSet (dictSet (dictSet (dictSet
    (dictSet d
      (bs "Filter") (Object.name (bs "FlateDecode")))
      (bs "Width") (Object.integer w))
      (bs "Height") (Object.integer h))
      (bs "ColorSpace") (Object.name (bs "DeviceGray")))
      (bs "BitsPerComponent") (Object.integer 8))
      (bs "DecodeParms")) (bs "Decode"))
    (bs "Length") (Object.integer len)

/-- Re-encoder and stream writer (lib.rs 321–415).  The path is selected by
the presence of the `SMask` reference.  Transparent: JPEG-encode the RGB
plane into the image stream, deflate the alpha plane into the mask stream.
Opaque: JPEG-encode the whole buffer into the image stream. -/
def encodeStage (C : Codec) (doc : Document) (oid : ObjectId)
    (smaskId : Option ObjectId) (quality : Nat) (img : Img)
    (acts : List String) : Document × Except String String :=
  let w := img.width
  let h := img.height
  match smaskId with
  | some sid =>
    let acts := acts ++ ["re-encode: Split RGB(JPEG) + Alpha(Flate)"]
    let rgba := img.toRgba8
    match C.jpegEncodeRgb quality w h (rgbaToRgbPlane rgba) with
    | none => (doc, .error "EncodeError")
    | some buffer =>
      let doc := doc.modifyStream oid
        (fun d _ => (imgDictT d buffer.length w h, buffer))
      let compressedMask := C.deflate (rgbaToAlphaPlane rgba)
      let doc := doc.modifyStream sid
        (fun d _ => (maskDictT d compressedMask.length w h, compressedMask))
      (doc, .ok (String.intercalate ", " acts))
  | none =>
    let acts := acts ++ ["re-encode: JPEG(q=" ++ toString quality ++ ")"]
    match C.jpegEncodeImage quality img with
    | none => (doc, .error "EncodeError")
    | some buffer =>
      let doc := doc.modifyStream oid
        (fun d _ => (opaqueDictT d buffer.length w h, buffer))
      (doc, .ok (String.intercalate ", " acts))

/-- `process_image_object` (lib.rs 35–418): the per-image pipeline.  Debug
image dumping is an external side effect with no bearing on the graph and
is omitted.  On error the partially mutated document is returned alongside,
mirroring the `&mut Document` parameter. -/
def process_image_object (C : Codec) (doc : Document) (oid : ObjectId)
    (quality maxDim : Nat) : Document × Except String String :=
  match doc.get oid with
  | some (Object.stream sdict0 _) =>
    let smaskId := smaskRefOf sdict0
    let doc1 := resolveStage doc oid
    match extractStage C doc1 oid with
    | .error e => (doc1, .error e)
    | .ok (w, h, comps, content, acts0) =>
      match decodeStage C comps w h content with
      | .error e => (doc1, .error e)
      | .ok (img0, acts1) =>
        match maskStage C doc1 smaskId w h img0 with
        | .error e => (doc1, .error e)
        | .ok (img1, acts2) =>
          let rs := resizeStage C maxDim img1
          encodeStage C doc1 oid smaskId quality rs.1
            (acts0 ++ acts1 ++ acts2 ++ rs.2)
  | _ => (doc, .error "Object not a stream")

/-! ### The document driver (`compress_pdf`, lib.rs 438–480) -/

/-- Image classification of one object (lib.rs 446–468): a stream whose
`Subtype` is the Name `Image`, together with its `SMask` reference. -/
def classify (doc : Document) (oid : ObjectId) : Bool × Option ObjectId :=
  match doc.get oid with
  | some (Object.stream d _) =>
    match dictGet d (bs "Subtype") with
    | some (Object.name n) =>
      if n == bs "Image" then (true, smaskRefOf d) else (false, none)
    | _ => (false, none)
  | _ => (false, none)

/-- The driver loop over the identifier snapshot (lib.rs 441–480).  Besides
the final graph it returns the submission trace: each identifier handed to
the per-image pipeline, with the mask identifier it claimed.  Per-image
errors are swallowed and iteration continues. -/
def driver (C : Codec) (quality maxDim : Nat) :
    List ObjectId → Document → List ObjectId →
    Document × List (ObjectId × Option ObjectId)
  | [], doc, _ => (doc, [])
  | oid :: rest, doc, processed =>
    if oid ∈ processed then driver C quality maxDim rest doc processed
    else
      let cls := classify doc oid
      if cls.1 then
        let processed1 := match cls.2 with
          | some sid => sid :: processed
          | none => processed
        let doc1 := (process_image_object C doc oid quality maxDim).1
        let r := driver C quality maxDim rest doc1 (oid :: processed1)
        (r.1, (oid, cls.2) :: r.2)
      else driver C quality maxDim rest doc processed

/-- One conversion pass of `compress_pdf`: snapshot the keys, run the
driver loop with an empty processed set. -/
def compress_pdf_driver (C : Codec) (doc : Document) (quality maxDim : Nat) :
    Document × List (ObjectId × Option ObjectId) :=
  driver C quality maxDim (doc.objects.map Prod.fst) doc []

/-! ### Observation helpers used by the theorems -/

/-- The dictionary of an optionally looked-up stream object. -/
def streamDictOf : Option Object → Option Dict
  | some (Object.stream d _) => some d
  | _ => none

/-- The content bytes of an optionally looked-up stream object. -/
def streamContentOf : Option Object → Option Bytes
  | some (Object.stream _ c) => some c
  | _ => none

/-- A named dictionary entry of an optionally looked-up stream object. -/
def streamKeyOf (o : Option Object) (k : Bytes) : Option Object :=
  (streamDictOf o).bind fun d => dictGet d k

/-! ### Concrete codec instances and documents for witnesses and
counterexamples -/

/-- A benign codec instance: the primary decompressor and zlib are the
identity transport, the JPEG encoders emit small tag buffers, the generic
loader always fails, the resizer is the identity. -/
def okCodec : Codec where
  primaryDecompress := fun _ c => some c
  inflate := some
  deflate := id
  jpegEncodeRgb := fun _ w h _ => some [w, h]
  jpegEncodeImage := fun _ i => some [i.width]
  loadFromMemory := fun _ => none
  resizeImg := fun i _ => i

/-- A codec whose primary decompressor and raw zlib inflate both fail. -/
def failCodec : Codec :=
  { okCodec with
    primaryDecompress := fun _ _ => none
    inflate := fun _ => none }

/-- A codec whose primary decompressor fails but whose raw zlib inflate
succeeds. -/
def fallbackCodec : Codec :=
  { okCodec with primaryDecompress := fun _ _ => none }

/-- A 1×1 DeviceGray image whose `SMask` references a 2×1 mask: the
dimension-mismatch scenario. -/
def docC1 : Document :=
  ⟨[((1, 0), Object.stream
      [(bs "SMask", Object.reference (2, 0)),
       (bs "Width", Object.integer 1),
       (bs "Height", Object.integer 1),
       (bs "ColorSpace", Object.name (bs "DeviceGray"))] [7]),
    ((2, 0), Object.stream
      [(bs "Width", Object.integer 2),
       (bs "Height", Object.integer 1)] [5, 6])]⟩

/-- An image whose `Filter` is an indirect reference to the Name
`FlateDecode` and whose payload no decompressor accepts. -/
def docC2 : Document :=
  ⟨[((1, 0), Object.stream
      [(bs "Filter", Object.reference (3, 0)),
       (bs "Width", Object.integer 1),
       (bs "Height", Object.integer 1)] [9]),
    ((3, 0), Object.name (bs "FlateDecode"))]⟩

/-- An opaque 1×1 DeviceGray image carrying a `Decode` array. -/
def docC3 : Document :=
  ⟨[((1, 0), Object.stream
      [(bs "Width", Object.integer 1),
       (bs "Height", Object.integer 1),
       (bs "ColorSpace", Object.name (bs "DeviceGray")),
       (bs "Decode", Object.array [Object.integer 1, Object.integer 0])]
      [7])]⟩

/-- A 1×1 DeviceGray image with a matching 1×1 mask: the transparent
round-trip scenario. -/
def docC5 : Document :=
  ⟨[((1, 0), Object.stream
      [(bs "SMask", Object.reference (2, 0)),
       (bs "Width", Object.integer 1),
       (bs "Height", Object.integer 1),
       (bs "ColorSpace", Object.name (bs "DeviceGray"))] [7]),
    ((2, 0), Object.stream
      [(bs "Width", Object.integer 1),
       (bs "Height", Object.integer 1)] [99])]⟩

/-- A two-image document where the first image claims the second as its
soft mask while the mask itself is also tagged as an image. -/
def docC9 : Document :=
  ⟨[((1, 0), Object.stream
      [(bs "Subtype", Object.name (bs "Image")),
       (bs "SMask", Object.reference (2, 0)),
       (bs "Width", Object.integer 1),
       (bs "Height", Object.integer 1),
       (bs "ColorSpace", Object.name (bs "DeviceGray"))] [7]),
    ((2, 0), Object.stream
      [(bs "Subtype", Object.name (bs "Image")),
       (bs "Width", Object.integer 1),
       (bs "Height", Object.integer 1)] [99])]⟩

/-- The object rewrite `modifyEntries` performs on the entry it hits. -/
def modObj (f : Dict → Bytes → Dict × Bytes) : Object → Object
  | Object.stream d c => Object.stream (f d c).1 (f d c).2
  | o => o

/-! ### Dictionary and document lemmas -/

theorem dictGet_set_self (d : Dict) (k : Bytes) (v : Object) :
    dictGet (dictSet d k v) k = some v := by
  induction d with
  | nil => simp [dictSet, dictGet, List.find?]
  | cons p t ih =>
    by_cases h : (p.1 == k) = true
    · simp [dictSet, h, dictGet, List.find?]
    · simp only [dictSet, h, if_false, Bool.false_eq_true]
      simpa [dictGet, List.find?, h] using ih

theorem dictGet_set_ne (d : Dict) (k k2 : Bytes) (v : Object) (h : k2 ≠ k) :
    dictGet (dictSet d k v) k2 = dictGet d k2 := by
  induction d with
  | nil =>
    have : (k == k2) = false := by
      simpa using fun hc => h (by simpa using hc.symm)
    simp [dictSet, dictGet, List.find?, this]
  | cons p t ih =>
    by_cases hp : (p.1 == k) = true
    · have hpk : p.1 = k := by simpa using hp
      have h1 : (k == k2) = false := by
        simpa using fun hc => h (by simpa using hc.symm)
      have h2 : (p.1 == k2) = false := by
        rw [hpk]; exact h1
      simp [dictSet, hp, dictGet, List.find?, h1, h2]
    · simp only [dictSet, hp, if_false, Bool.false_eq_true]
      by_cases hq : (p.1 == k2) = true
      · simp [dictGet, List.find?, hq]
      · simp [dictGet, List.find?, hq] at ih ⊢
        exact ih

theorem dictGet_remove_self (d : Dict) (k : Bytes) :
    dictGet (dictRemove d k) k = none := by
  induction d with
  | nil => simp [dictRemove, dictGet, List.find?]
  | cons p t ih =>
    by_cases hp : (p.1 == k) = true
    · simpa [dictRemove, hp] using ih
    · simp only [dictRemove, hp, if_false, Bool.false_eq_true]
      simpa [dictGet, List.find?, hp] using ih

theorem dictGet_remove_ne (d : Dict) (k k2 : Bytes) (h : k2 ≠ k) :
    dictGet (dictRemove d k) k2 = dictGet d k2 := by
  induction d with
  | nil => simp [dictRemove]
  | cons p t ih =>
    by_cases hp : (p.1 == k) = true
    · have hpk : p.1 = k := by simpa using hp
      have h2 : (p.1 == k2) = false := by
        rw [hpk]
        simpa using fun hc => h (by simpa using hc.symm)
      simp only [dictRemove, hp, if_true]
      rw [ih]
      simp [dictGet, List.find?, h2]
    · simp only [dictRemove, hp, if_false, Bool.false_eq_true]
      by_cases hq : (p.1 == k2) = true
      · simp [dictGet, List.find?, hq]
      · simp [dictGet, List.find?, hq] at ih ⊢
        exact ih

theorem modifyEntries_find_self (id : ObjectId) (f : Dict → Bytes → Dict × Bytes) :
    ∀ l : List (ObjectId × Object),
      ((modifyEntries id f l).find? fun p => p.1 == id) =
        (l.find? fun p => p.1 == id).map fun p => (p.1, modObj f p.2)
  | [] => by simp [modifyEntries]
  | p :: t => by
    by_cases hp : (p.1 == id) = true
    · cases hobj : p.2 with
      | stream d c => simp [modifyEntries, hp, hobj, List.find?, modObj]
      | null => simp [modifyEntries, hp, hobj, List.find?, modObj]
      | boolean b => simp [modifyEntries, hp, hobj, List.find?, modObj]
      | integer i => simp [modifyEntries, hp, hobj, List.find?, modObj]
      | real => simp [modifyEntries, hp, hobj, List.find?, modObj]
      | string s => simp [modifyEntries, hp, hobj, List.find?, modObj]
      | name n => simp [modifyEntries, hp, hobj, List.find?, modObj]
      | array xs => simp [modifyEntries, hp, hobj, List.find?, modObj]
      | dict e => simp [modifyEntries, hp, hobj, List.find?, modObj]
      | reference r => simp [modifyEntries, hp, hobj, List.find?, modObj]
    · simp only [modifyEntries, hp, if_false, Bool.false_eq_true]
      simpa [List.find?, hp] using modifyEntries_find_self id f t

theorem modifyEntries_find_ne (id id2 : ObjectId) (f : Dict → Bytes → Dict × Bytes)
    (h : id2 ≠ id) :
    ∀ l : List (ObjectId × Object),
      ((modifyEntries id f l).find? fun p => p.1 == id2) =
        l.find? fun p => p.1 == id2
  | [] => by simp [modifyEntries]
  | p :: t => by
    by_cases hp : (p.1 == id) = true
    · have hpk : p.1 = id := by simpa using hp
      have h2 : (p.1 == id2) = false := by
        rw [hpk]
        simpa using fun hc => h (by simpa using hc.symm)
      cases hobj : p.2 <;>
        simp [modifyEntries, hp, hobj, List.find?, h2]
    · simp only [modifyEntries, hp, if_false, Bool.false_eq_true]
      by_cases hq : (p.1 == id2) = true
      · simp [List.find?, hq]
      · simpa [List.find?, hq] using modifyEntries_find_ne id id2 f h t

theorem get_modifyStream_self (doc : Document) (id : ObjectId)
    (f : Dict → Bytes → Dict × Bytes) :
    (doc.modifyStream id f).get id = (doc.get id).map (modObj f) := by
  unfold Document.get Document.modifyStream
  rw [modifyEntries_find_self]
  cases doc.objects.find? fun p => p.1 == id <;> simp

theorem get_modifyStream_ne (doc : Document) (id id2 : ObjectId)
    (f : Dict → Bytes → Dict × Bytes) (h : id2 ≠ id) :
    (doc.modifyStream id f).get id2 = doc.get id2 := by
  unfold Document.get Document.modifyStream
  rw [modifyEntries_find_ne _ _ _ h]

theorem get_applyEntry_ne (doc : Document) (oid id2 : ObjectId) (k : Bytes)
    (r : Option Object) (h : id2 ≠ oid) :
    (applyEntry doc oid k r).get id2 = doc.get id2 := by
  cases r with
  | none => rfl
  | some v => exact get_modifyStream_ne _ _ _ _ h

theorem streamContentOf_applyEntry (doc : Document) (oid : ObjectId) (k : Bytes)
    (r : Option Object) :
    streamContentOf ((applyEntry doc oid k r).get oid) =
      streamContentOf (doc.get oid) := by
  cases r with
  | none => rfl
  | some v =>
    rw [applyEntry, get_modifyStream_self]
    cases hobj : doc.get oid with
    | none => rfl
    | some o => cases o <;> simp [modObj, streamContentOf]

theorem resolveStage_get_ne (doc : Document) (oid id2 : ObjectId) (h : id2 ≠ oid) :
    (resolveStage doc oid).get id2 = doc.get id2 := by
  unfold resolveStage
  rw [get_applyEntry_ne _ _ _ _ _ h, get_applyEntry_ne _ _ _ _ _ h]

theorem resolveStage_content (doc : Document) (oid : ObjectId) :
    streamContentOf ((resolveStage doc oid).get oid) =
      streamContentOf (doc.get oid) := by
  unfold resolveStage
  rw [streamContentOf_applyEntry, streamContentOf_applyEntry]

theorem resolveStage_of_not_stream (doc : Document) (oid : ObjectId)
    (h : streamDictOf (doc.get oid) = none) : resolveStage doc oid = doc := by
  have hro : ∀ k, resolveOf doc oid k = none := by
    intro k
    unfold resolveOf
    cases hobj : doc.get oid with
    | none => rfl
    | some o =>
      cases o <;> first
        | rfl
        | (exfalso; rw [hobj] at h; simp [streamDictOf] at h)
  unfold resolveStage
  rw [hro, hro]
  rfl

/-! ### Pipeline inversion lemmas -/

theorem encodeStage_error (C : Codec) (doc : Document) (oid : ObjectId)
    (smaskId : Option ObjectId) (q : Nat) (img : Img) (acts : List String)
    (e : String)
    (h : (encodeStage C doc oid smaskId q img acts).2 = Except.error e) :
    (encodeStage C doc oid smaskId q img acts).1 = doc := by
  unfold encodeStage at h ⊢
  dsimp only at h ⊢
  cases smaskId with
  | some sid =>
    cases hj : C.jpegEncodeRgb q img.width img.height
        (rgbaToRgbPlane img.toRgba8) with
    | none => simp [hj]
    | some buffer => rw [hj] at h; simp at h
  | none =>
    cases hj : C.jpegEncodeImage q img with
    | none => simp [hj]
    | some buffer => rw [hj] at h; simp at h

theorem process_error_doc (C : Codec) (doc : Document) (oid : ObjectId)
    (q m : Nat) (e : String)
    (h : (process_image_object C doc oid q m).2 = Except.error e) :
    (process_image_object C doc oid q m).1 = resolveStage doc oid := by
  unfold process_image_object at h ⊢
  dsimp only at h ⊢
  split at h
  · split at h
    · rfl
    · split at h
      · rfl
      · split at h
        · rfl
        · exact encodeStage_error _ _ _ _ _ _ _ _ h
  · rename_i hns
    have hnone : streamDictOf (doc.get oid) = none := by
      cases hobj : doc.get oid with
      | none => rfl
      | some o =>
        cases o <;> first
          | rfl
          | (exact absurd hobj (by intro hc; exact hns _ _ hc))
    rw [resolveStage_of_not_stream _ _ hnone]

theorem extractStage_ok_inv (C : Codec) (doc : Document) (oid : ObjectId)
    (w h comps : Nat) (content : Bytes) (acts : List String)
    (hex : extractStage C doc oid = Except.ok (w, h, comps, content, acts)) :
    ∃ sdict scontent, doc.get oid = some (Object.stream sdict scontent) ∧
      w = dimOf sdict (bs "Width") ∧ h = dimOf sdict (bs "Height") ∧
      comps = componentCount (colorSpaceOf sdict) w h content.length ∧
      extractContent C sdict scontent = Except.ok content := by
  unfold extractStage at hex
  split at hex
  · rename_i sdict scontent heq
    cases hcc : extractContent C sdict scontent with
    | error e => rw [hcc] at hex; simp at hex
    | ok c =>
      rw [hcc] at hex
      simp only [Except.ok.injEq, Prod.mk.injEq] at hex
      obtain ⟨hw, hh, hcomp, hcontent, _⟩ := hex
      subst hcontent
      exact ⟨sdict, scontent, heq, hw.symm, hh.symm,
        by rw [← hw, ← hh]; exact hcomp.symm, hcc⟩
  · simp at hex

theorem maskStage_some_inv (C : Codec) (doc : Document) (sid : ObjectId)
    (w h : Nat) (img img1 : Img) (acts : List String)
    (hm : maskStage C doc (some sid) w h img = Except.ok (img1, acts)) :
    ∃ mdict mcontent mc, doc.get sid = some (Object.stream mdict mcontent) ∧
      decompress_stream C mdict mcontent = Except.ok mc ∧
      acts = ["applied SMask"] := by
  simp only [maskStage] at hm
  split at hm
  · rename_i mdict mcontent heq
    cases hmc : decompress_stream C mdict mcontent with
    | error e => rw [hmc] at hm; simp at hm
    | ok mc =>
      rw [hmc] at hm
      dsimp only at hm
      split at hm
      · split at hm
        · simp at hm
        · simp only [Except.ok.injEq, Prod.mk.injEq] at hm
          exact ⟨mdict, mcontent, mc, heq, hmc, hm.2.symm⟩
      · simp only [Except.ok.injEq, Prod.mk.injEq] at hm
        exact ⟨mdict, mcontent, mc, heq, hmc, hm.2.symm⟩
  · simp at hm

theorem maskStage_mismatch (C : Codec) (doc : Document) (sid : ObjectId)
    (w h : Nat) (img : Img) (mdict : Dict) (mcontent mc : Bytes)
    (hget : doc.get sid = some (Object.stream mdict mcontent))
    (hdec : decompress_stream C mdict mcontent = Except.ok mc)
    (hmm : ¬ (dimOf mdict (bs "Width") = w ∧ dimOf mdict (bs "Height") = h)) :
    maskStage C doc (some sid) w h img = Except.ok (img, ["applied SMask"]) := by
  simp only [maskStage]
  rw [hget]
  dsimp only
  rw [hdec]
  dsimp only
  rw [if_neg hmm]

theorem process_ok_inv (C : Codec) (doc : Document) (oid : ObjectId)
    (q m : Nat) (s : String)
    (h : (process_image_object C doc oid q m).2 = Except.ok s) :
    ∃ sdict0 c0 w hh comps content acts0 img0 acts1 img1 acts2,
      doc.get oid = some (Object.stream sdict0 c0) ∧
      extractStage C (resolveStage doc oid) oid =
        Except.ok (w, hh, comps, content, acts0) ∧
      decodeStage C comps w hh content = Except.ok (img0, acts1) ∧
      maskStage C (resolveStage doc oid) (smaskRefOf sdict0) w hh img0 =
        Except.ok (img1, acts2) ∧
      process_image_object C doc oid q m =
        encodeStage C (resolveStage doc oid) oid (smaskRefOf sdict0) q
          (resizeStage C m img1).1
          (acts0 ++ acts1 ++ acts2 ++ (resizeStage C m img1).2) := by
  unfold process_image_object at h ⊢
  split at h
  · rename_i sdict0 c0 heq
    dsimp only at h
    cases hex : extractStage C (resolveStage doc oid) oid with
    | error e => rw [hex] at h; simp at h
    | ok v =>
      obtain ⟨w, hh, comps, content, acts0⟩ := v
      rw [hex] at h
      dsimp only at h
      cases hdec : decodeStage C comps w hh content with
      | error e => rw [hdec] at h; simp at h
      | ok v2 =>
        obtain ⟨img0, acts1⟩ := v2
        rw [hdec] at h
        dsimp only at h
        cases hmask : maskStage C (resolveStage doc oid) (smaskRefOf sdict0)
            w hh img0 with
        | error e => rw [hmask] at h; simp at h
        | ok v3 =>
          obtain ⟨img1, acts2⟩ := v3
          rw [hmask] at h
          dsimp only at h
          refine ⟨sdict0, c0, w, hh, comps, content, acts0, img0, acts1,
            img1, acts2, heq, rfl, hdec, hmask, ?_⟩
          simp only [heq, hex, hdec, hmask]
  · simp at h

theorem encodeStage_some_ok (C : Codec) (doc : Document) (oid sid : ObjectId)
    (q : Nat) (img : Img) (acts : List String) (s : String)
    (h : (encodeStage C doc oid (some sid) q img acts).2 = Except.ok s) :
    ∃ buffer,
      C.jpegEncodeRgb q img.width img.height (rgbaToRgbPlane img.toRgba8) =
        some buffer ∧
      s = String.intercalate ", "
        (acts ++ ["re-encode: Split RGB(JPEG) + Alpha(Flate)"]) ∧
      encodeStage C doc oid (some sid) q img acts =
        ((doc.modifyStream oid fun d _ =>
            (imgDictT d buffer.length img.width img.height, buffer)).modifyStream
          sid fun d _ =>
            (maskDictT d (C.deflate (rgbaToAlphaPlane img.toRgba8)).length
              img.width img.height,
             C.deflate (rgbaToAlphaPlane img.toRgba8)),
         Except.ok s) := by
  unfold encodeStage at h ⊢
  dsimp only at h ⊢
  cases hj : C.jpegEncodeRgb q img.width img.height
      (rgbaToRgbPlane img.toRgba8) with
  | none => rw [hj] at h; simp at h
  | some buffer =>
    rw [hj] at h
    dsimp only at h
    simp only [Except.ok.injEq] at h
    exact ⟨buffer, rfl, h.symm, by dsimp only; rw [h]⟩

theorem encodeStage_none_ok (C : Codec) (doc : Document) (oid : ObjectId)
    (q : Nat) (img : Img) (acts : List String) (s : String)
    (h : (encodeStage C doc oid none q img acts).2 = Except.ok s) :
    ∃ buffer,
      C.jpegEncodeImage q img = some buffer ∧
      s = String.intercalate ", "
        (acts ++ ["re-encode: JPEG(q=" ++ toString q ++ ")"]) ∧
      encodeStage C doc oid none q img acts =
        (doc.modifyStream oid fun d _ =>
          (opaqueDictT d buffer.length img.width img.height, buffer),
         Except.ok s) := by
  unfold encodeStage at h ⊢
  dsimp only at h ⊢
  cases hj : C.jpegEncodeImage q img with
  | none => rw [hj] at h; simp at h
  | some buffer =>
    rw [hj] at h
    dsimp only at h
    simp only [Except.ok.injEq] at h
    exact ⟨buffer, rfl, h.symm, by dsimp only; rw [h]⟩

/-! ### Facts about the written dictionaries -/

theorem opaqueDictT_facts (d : Dict) (len : Int) (w h : Nat) :
    dictGet (opaqueDictT d len w h) (bs "Length") = some (Object.integer len) ∧
    dictGet (opaqueDictT d len w h) (bs "Filter") =
      some (Object.name (bs "DCTDecode")) ∧
    dictGet (opaqueDictT d len w h) (bs "Width") = some (Object.integer w) ∧
    dictGet (opaqueDictT d len w h) (bs "Height") = some (Object.integer h) ∧
    dictGet (opaqueDictT d len w h) (bs "ColorSpace") =
      some (Object.name (bs "DeviceRGB")) ∧
    dictGet (opaqueDictT d len w h) (bs "BitsPerComponent") =
      some (Object.integer 8) ∧
    dictGet (opaqueDictT d len w h) (bs "DecodeParms") = none ∧
    dictGet (opaqueDictT d len w h) (bs "Decode") = dictGet d (bs "Decode") := by
  unfold opaqueDictT
  refine ⟨?_, ?_, ?_, ?_, ?_, ?_, ?_, ?_⟩ <;>
    repeat first
      | rw [dictGet_remove_self]
      | rw [dictGet_set_self]
      | rw [dictGet_remove_ne _ _ _ (by decide)]
      | rw [dictGet_set_ne _ _ _ _ (by decide)]

theorem imgDictT_facts (d : Dict) (len : Int) (w h : Nat) :
    dictGet (imgDictT d len w h) (bs "Length") = some (Object.integer len) ∧
    dictGet (imgDictT d len w h) (bs "Filter") =
      some (Object.name (bs "DCTDecode")) ∧
    dictGet (imgDictT d len w h) (bs "Width") = some (Object.integer w) ∧
    dictGet (imgDictT d len w h) (bs "Height") = some (Object.integer h) ∧
    dictGet (imgDictT d len w h) (bs "ColorSpace") =
      some (Object.name (bs "DeviceRGB")) ∧
    dictGet (imgDictT d len w h) (bs "BitsPerComponent") =
      some (Object.integer 8) ∧
    dictGet (imgDictT d len w h) (bs "DecodeParms") = none ∧
    dictGet (imgDictT d len w h) (bs "Decode") = none := by
  unfold imgDictT
  obtain ⟨h1, h2, h3, h4, h5, h6, h7, _⟩ := opaqueDictT_facts d len w h
  refine ⟨?_, ?_, ?_, ?_, ?_, ?_, ?_, ?_⟩ <;>
    first
      | rw [dictGet_remove_self]
      | (rw [dictGet_remove_ne _ _ _ (by decide)]; assumption)

theorem get_modify_stream_eq (doc : Document) (id : ObjectId)
    (f : Dict → Bytes → Dict × Bytes) (d : Dict) (c : Bytes)
    (h : doc.get id = some (Object.stream d c)) :
    (doc.modifyStream id f).get id =
      some (Object.stream (f d c).1 (f d c).2) := by
  rw [get_modifyStream_self, h]
  rfl

theorem maskDictT_facts (d : Dict) (len : Int) (w h : Nat) :
    dictGet (maskDictT d len w h) (bs "Length") = some (Object.integer len) ∧
    dictGet (maskDictT d len w h) (bs "Filter") =
      some (Object.name (bs "FlateDecode")) ∧
    dictGet (maskDictT d len w h) (bs "Width") = some (Object.integer w) ∧
    dictGet (maskDictT d len w h) (bs "Height") = some (Object.integer h) ∧
    dictGet (maskDictT d len w h) (bs "ColorSpace") =
      some (Object.name (bs "DeviceGray")) ∧
    dictGet (maskDictT d len w h) (bs "BitsPerComponent") =
      some (Object.integer 8) ∧
    dictGet (maskDictT d len w h) (bs "DecodeParms") = none ∧
    dictGet (maskDictT d len w h) (bs "Decode") = none := by
  unfold maskDictT
  refine ⟨?_, ?_, ?_, ?_, ?_, ?_, ?_, ?_⟩ <;>
    repeat first
      | rw [dictGet_remove_self]
      | rw [dictGet_set_self]
      | rw [dictGet_remove_ne _ _ _ (by decide)]
      | rw [dictGet_set_ne _ _ _ _ (by decide)]

/-! ### Claim theorems -/

set_option maxHeartbeats 2000000
set_option maxRecDepth 8000

/-- C4: for every stream the re-encoder writes back — the image stream in
either path, and the mask stream in the transparent path — the `Length`
dictionary entry equals the exact byte length of the stream's newly
assigned content. -/
theorem c4_length_matches_content (C : Codec) (doc : Document)
    (oid : ObjectId) (q m : Nat) (s : String) (sdict0 : Dict) (c0 : Bytes)
    (h0 : doc.get oid = some (Object.stream sdict0 c0))
    (hok : (process_image_object C doc oid q m).2 = Except.ok s) :
    (∃ d c, (process_image_object C doc oid q m).1.get oid =
        some (Object.stream d c) ∧
        dictGet d (bs "Length") = some (Object.integer c.length)) ∧
    (∀ sid, smaskRefOf sdict0 = some sid →
      ∃ d c, (process_image_object C doc oid q m).1.get sid =
        some (Object.stream d c) ∧
        dictGet d (bs "Length") = some (Object.integer c.length)) := by
  obtain ⟨sd', c0', w, hh, comps, content, acts0, img0, acts1, img1, acts2,
    heq, hex, hdec, hmask, hproc⟩ := process_ok_inv C doc oid q m s hok
  rw [h0] at heq
  simp only [Option.some.injEq, Object.stream.injEq] at heq
  obtain ⟨hsd, _⟩ := heq
  subst hsd
  obtain ⟨sdict1, scontent1, hget1, _, _, _, _⟩ :=
    extractStage_ok_inv C (resolveStage doc oid) oid w hh comps content
      acts0 hex
  cases hsm : smaskRefOf sdict0 with
  | none =>
    rw [hsm] at hproc
    rw [hproc] at hok
    obtain ⟨buffer, hj, hs, henc⟩ := encodeStage_none_ok C
      (resolveStage doc oid) oid q (resizeStage C m img1).1
      (acts0 ++ acts1 ++ acts2 ++ (resizeStage C m img1).2) s hok
    refine ⟨⟨opaqueDictT sdict1 buffer.length (resizeStage C m img1).1.width
        (resizeStage C m img1).1.height, buffer, ?_,
        (opaqueDictT_facts _ _ _ _).1⟩,
      fun sid hc => Option.noConfusion hc⟩
    rw [hproc, henc]
    exact get_modify_stream_eq _ _ _ _ _ hget1
  | some sid =>
    rw [hsm] at hproc hmask
    rw [hproc] at hok
    obtain ⟨buffer, hj, hs, henc⟩ := encodeStage_some_ok C
      (resolveStage doc oid) oid sid q (resizeStage C m img1).1
      (acts0 ++ acts1 ++ acts2 ++ (resizeStage C m img1).2) s hok
    obtain ⟨mdict, mcontent, mc, hgetsid, _, _⟩ :=
      maskStage_some_inv C (resolveStage doc oid) sid w hh img0 img1
        acts2 hmask
    by_cases hso : sid = oid
    · subst hso
      have hfin : (process_image_object C doc sid q m).1.get sid =
          some (Object.stream
            (maskDictT (imgDictT sdict1 buffer.length
                (resizeStage C m img1).1.width
                (resizeStage C m img1).1.height)
              (C.deflate (rgbaToAlphaPlane (resizeStage C m img1).1.toRgba8)).length
              (resizeStage C m img1).1.width
              (resizeStage C m img1).1.height)
            (C.deflate (rgbaToAlphaPlane (resizeStage C m img1).1.toRgba8))) := by
        rw [hproc, henc]
        exact get_modify_stream_eq _ _ _ _ _
          (get_modify_stream_eq _ _ _ _ _ hget1)
      exact ⟨⟨_, _, hfin, (maskDictT_facts _ _ _ _).1⟩,
        fun sid2 hc => by
          cases hc
          exact ⟨_, _, hfin, (maskDictT_facts _ _ _ _).1⟩⟩
    · have himg : (process_image_object C doc oid q m).1.get oid =
          some (Object.stream
            (imgDictT sdict1 buffer.length (resizeStage C m img1).1.width
              (resizeStage C m img1).1.height) buffer) := by
        rw [hproc, henc]
        dsimp only
        rw [get_modifyStream_ne _ _ _ _ (fun hc => hso hc.symm)]
        exact get_modify_stream_eq _ _ _ _ _ hget1
      have hpre : ((resolveStage doc oid).modifyStream oid fun d _ =>
            (imgDictT d buffer.length (resizeStage C m img1).1.width
              (resizeStage C m img1).1.height, buffer)).get sid =
          some (Object.stream mdict mcontent) := by
        rw [get_modifyStream_ne _ _ _ _ hso]
        exact hgetsid
      have hmsk : (process_image_object C doc oid q m).1.get sid =
          some (Object.stream
            (maskDictT mdict
              (C.deflate (rgbaToAlphaPlane (resizeStage C m img1).1.toRgba8)).length
              (resizeStage C m img1).1.width
              (resizeStage C m img1).1.height)
            (C.deflate (rgbaToAlphaPlane (resizeStage C m img1).1.toRgba8))) := by
        rw [hproc, henc]
        exact get_modify_stream_eq _ _ _ _ _ hpre
      exact ⟨⟨_, _, himg, (imgDictT_facts _ _ _ _).1⟩,
        fun sid2 hc => by
          cases hc
          exact ⟨_, _, hmsk, (maskDictT_facts _ _ _ _).1⟩⟩

/-- C3 amended: after successful processing, no written stream retains a
`DecodeParms` entry, and in the transparent path the `Decode` entry is
removed from both the image stream and the mask stream.  (The opaque path
leaves a pre-existing `Decode` entry in place; see the counterexample.) -/
theorem c3_stale_entries_removed (C : Codec) (doc : Document)
    (oid : ObjectId) (q m : Nat) (s : String) (sdict0 : Dict) (c0 : Bytes)
    (h0 : doc.get oid = some (Object.stream sdict0 c0))
    (hok : (process_image_object C doc oid q m).2 = Except.ok s) :
    (∃ d c, (process_image_object C doc oid q m).1.get oid =
        some (Object.stream d c) ∧
        dictGet d (bs "DecodeParms") = none ∧
        (smaskRefOf sdict0 ≠ none → dictGet d (bs "Decode") = none)) ∧
    (∀ sid, smaskRefOf sdict0 = some sid →
      ∃ d c, (process_image_object C doc oid q m).1.get sid =
        some (Object.stream d c) ∧
        dictGet d (bs "DecodeParms") = none ∧
        dictGet d (bs "Decode") = none) := by
  obtain ⟨sd', c0', w, hh, comps, content, acts0, img0, acts1, img1, acts2,
    heq, hex, hdec, hmask, hproc⟩ := process_ok_inv C doc oid q m s hok
  rw [h0] at heq
  simp only [Option.some.injEq, Object.stream.injEq] at heq
  obtain ⟨hsd, _⟩ := heq
  subst hsd
  obtain ⟨sdict1, scontent1, hget1, _, _, _, _⟩ :=
    extractStage_ok_inv C (resolveStage doc oid) oid w hh comps content
      acts0 hex
  cases hsm : smaskRefOf sdict0 with
  | none =>
    rw [hsm] at hproc
    rw [hproc] at hok
    obtain ⟨buffer, hj, hs, henc⟩ := encodeStage_none_ok C
      (resolveStage doc oid) oid q (resizeStage C m img1).1
      (acts0 ++ acts1 ++ acts2 ++ (resizeStage C m img1).2) s hok
    refine ⟨⟨opaqueDictT sdict1 buffer.length (resizeStage C m img1).1.width
        (resizeStage C m img1).1.height, buffer, ?_,
        (opaqueDictT_facts _ _ _ _).2.2.2.2.2.2.1,
        fun hnn => absurd rfl hnn⟩,
      fun sid hc => Option.noConfusion hc⟩
    rw [hproc, henc]
    exact get_modify_stream_eq _ _ _ _ _ hget1
  | some sid =>
    rw [hsm] at hproc hmask
    rw [hproc] at hok
    obtain ⟨buffer, hj, hs, henc⟩ := encodeStage_some_ok C
      (resolveStage doc oid) oid sid q (resizeStage C m img1).1
      (acts0 ++ acts1 ++ acts2 ++ (resizeStage C m img1).2) s hok
    obtain ⟨mdict, mcontent, mc, hgetsid, _, _⟩ :=
      maskStage_some_inv C (resolveStage doc oid) sid w hh img0 img1
        acts2 hmask
    by_cases hso : sid = oid
    · subst hso
      have hfin : (process_image_object C doc sid q m).1.get sid =
          some (Object.stream
            (maskDictT (imgDictT sdict1 buffer.length
                (resizeStage C m img1).1.width
                (resizeStage C m img1).1.height)
              (C.deflate (rgbaToAlphaPlane (resizeStage C m img1).1.toRgba8)).length
              (resizeStage C m img1).1.width
              (resizeStage C m img1).1.height)
            (C.deflate (rgbaToAlphaPlane (resizeStage C m img1).1.toRgba8))) := by
        rw [hproc, henc]
        exact get_modify_stream_eq _ _ _ _ _
          (get_modify_stream_eq _ _ _ _ _ hget1)
      exact ⟨⟨_, _, hfin, (maskDictT_facts _ _ _ _).2.2.2.2.2.2.1,
          fun _ => (maskDictT_facts _ _ _ _).2.2.2.2.2.2.2⟩,
        fun sid2 hc => by
          cases hc
          exact ⟨_, _, hfin, (maskDictT_facts _ _ _ _).2.2.2.2.2.2.1,
            (maskDictT_facts _ _ _ _).2.2.2.2.2.2.2⟩⟩
    · have himg : (process_image_object C doc oid q m).1.get oid =
          some (Object.stream
            (imgDictT sdict1 buffer.length (resizeStage C m img1).1.width
              (resizeStage C m img1).1.height) buffer) := by
        rw [hproc, henc]
        dsimp only
        rw [get_modifyStream_ne _ _ _ _ (fun hc => hso hc.symm)]
        exact get_modify_stream_eq _ _ _ _ _ hget1
      have hpre : ((resolveStage doc oid).modifyStream oid fun d _ =>
            (imgDictT d buffer.length (resizeStage C m img1).1.width
              (resizeStage C m img1).1.height, buffer)).get sid =
          some (Object.stream mdict mcontent) := by
        rw [get_modifyStream_ne _ _ _ _ hso]
        exact hgetsid
      have hmsk : (process_image_object C doc oid q m).1.get sid =
          some (Object.stream
            (maskDictT mdict
              (C.deflate (rgbaToAlphaPlane (resizeStage C m img1).1.toRgba8)).length
              (resizeStage C m img1).1.width
              (resizeStage C m img1).1.height)
            (C.deflate (rgbaToAlphaPlane (resizeStage C m img1).1.toRgba8))) := by
        rw [hproc, henc]
        exact get_modify_stream_eq _ _ _ _ _ hpre
      exact ⟨⟨_, _, himg, (imgDictT_facts _ _ _ _).2.2.2.2.2.2.1,
          fun _ => (imgDictT_facts _ _ _ _).2.2.2.2.2.2.2⟩,
        fun sid2 hc => by
          cases hc
          exact ⟨_, _, hmsk, (maskDictT_facts _ _ _ _).2.2.2.2.2.2.1,
            (maskDictT_facts _ _ _ _).2.2.2.2.2.2.2⟩⟩

/-! ### Buffer-length and well-formedness lemmas -/

theorem lumaToRgba_length : ∀ l : Bytes, (lumaToRgba l).length = 4 * l.length
  | [] => by simp [lumaToRgba]
  | x :: rest => by
    have := lumaToRgba_length rest
    simp [lumaToRgba, this]
    omega

theorem rgbToRgba_length : ∀ l : Bytes,
    (rgbToRgba l).length = 4 * (l.length / 3)
  | a :: b :: c :: rest => by
    have := rgbToRgba_length rest
    simp [rgbToRgba, this]
    omega
  | [] => by simp [rgbToRgba]
  | [a] => by simp [rgbToRgba]
  | [a, b] => by simp [rgbToRgba]

theorem rgbToLumaBytes_length : ∀ l : Bytes,
    (rgbToLumaBytes l).length = l.length / 3
  | a :: b :: c :: rest => by
    have := rgbToLumaBytes_length rest
    simp [rgbToLumaBytes, this]
    omega
  | [] => by simp [rgbToLumaBytes]
  | [a] => by simp [rgbToLumaBytes]
  | [a, b] => by simp [rgbToLumaBytes]

theorem rgbaToLumaBytes_length : ∀ l : Bytes,
    (rgbaToLumaBytes l).length = l.length / 4
  | a :: b :: c :: d :: rest => by
    have := rgbaToLumaBytes_length rest
    simp [rgbaToLumaBytes, this]
    omega
  | [] => by simp [rgbaToLumaBytes]
  | [a] => by simp [rgbaToLumaBytes]
  | [a, b] => by simp [rgbaToLumaBytes]
  | [a, b, c] => by simp [rgbaToLumaBytes]

theorem lumaToRgbBytes_length : ∀ l : Bytes,
    (lumaToRgbBytes l).length = 3 * l.length
  | [] => by simp [lumaToRgbBytes]
  | x :: rest => by
    have := lumaToRgbBytes_length rest
    simp [lumaToRgbBytes, this]
    omega

theorem rgbaToRgbBytes_length : ∀ l : Bytes,
    (rgbaToRgbBytes l).length = 3 * (l.length / 4)
  | a :: b :: c :: d :: rest => by
    have := rgbaToRgbBytes_length rest
    simp [rgbaToRgbBytes, this]
    omega
  | [] => by simp [rgbaToRgbBytes]
  | [a] => by simp [rgbaToRgbBytes]
  | [a, b] => by simp [rgbaToRgbBytes]
  | [a, b, c] => by simp [rgbaToRgbBytes]

theorem rgbaToAlphaPlane_length : ∀ l : Bytes,
    (rgbaToAlphaPlane l).length = l.length / 4
  | a :: b :: c :: d :: rest => by
    have := rgbaToAlphaPlane_length rest
    simp [rgbaToAlphaPlane, this]
    omega
  | [] => by simp [rgbaToAlphaPlane]
  | [a] => by simp [rgbaToAlphaPlane]
  | [a, b] => by simp [rgbaToAlphaPlane]
  | [a, b, c] => by simp [rgbaToAlphaPlane]

theorem applyMaskAux_length (mask : Bytes) (mw w : Nat) : ∀ (i : Nat) (l : Bytes),
    (applyMaskAux mask mw w i l).length = l.length
  | i, a :: b :: c :: d :: rest => by
    have := applyMaskAux_length mask mw w (i + 1) rest
    simp [applyMaskAux, this]
  | _, [] => by simp [applyMaskAux]
  | _, [a] => by simp [applyMaskAux]
  | _, [a, b] => by simp [applyMaskAux]
  | _, [a, b, c] => by simp [applyMaskAux]

theorem luma_wf_of_len (w h : Nat) (d : Bytes) (hl : d.length = w * h * 1) :
    (Img.luma w h d).wf := hl

theorem rgb_wf_of_len (w h : Nat) (d : Bytes) (hl : d.length = w * h * 3) :
    (Img.rgb w h d).wf := hl

theorem rgba_wf_of_len (w h : Nat) (d : Bytes) (hl : d.length = w * h * 4) :
    (Img.rgba w h d).wf := hl

theorem toRgba8_length : ∀ i : Img, i.wf →
    i.toRgba8.length = 4 * (i.width * i.height)
  | Img.luma w h d, hw => by
    have hl : d.length = w * h * 1 := hw
    show (lumaToRgba d).length = 4 * (w * h)
    rw [lumaToRgba_length, hl]
    omega
  | Img.rgb w h d, hw => by
    have hl : d.length = w * h * 3 := hw
    show (rgbToRgba d).length = 4 * (w * h)
    rw [rgbToRgba_length, hl]
    omega
  | Img.rgba w h d, hw => by
    have hl : d.length = w * h * 4 := hw
    show d.length = 4 * (w * h)
    omega

theorem toLuma8_wf : ∀ i : Img, i.wf → i.toLuma8.wf
  | Img.luma w h d, hw => hw
  | Img.rgb w h d, hw => by
    have hl : d.length = w * h * 3 := hw
    refine luma_wf_of_len w h _ ?_
    rw [rgbToLumaBytes_length, hl]
    omega
  | Img.rgba w h d, hw => by
    have hl : d.length = w * h * 4 := hw
    refine luma_wf_of_len w h _ ?_
    rw [rgbaToLumaBytes_length, hl]
    omega

theorem toRgb8_wf : ∀ i : Img, i.wf → i.toRgb8.wf
  | Img.luma w h d, hw => by
    have hl : d.length = w * h * 1 := hw
    refine rgb_wf_of_len w h _ ?_
    rw [lumaToRgbBytes_length, hl]
    omega
  | Img.rgb w h d, hw => hw
  | Img.rgba w h d, hw => by
    have hl : d.length = w * h * 4 := hw
    refine rgb_wf_of_len w h _ ?_
    rw [rgbaToRgbBytes_length, hl]
    omega

theorem fromRawData_length (w h ch : Nat) (data d : Bytes)
    (hf : fromRawData w h ch data = some d) : d.length = w * h * ch := by
  unfold fromRawData at hf
  split at hf
  · rename_i hle
    simp only [Option.some.injEq] at hf
    subst hf
    simp [List.length_take]
    omega
  · simp at hf

theorem decodeStage_wf (C : Codec) (comps w h : Nat) (content : Bytes)
    (img : Img) (acts : List String) (hC : CodecWF C)
    (hd : decodeStage C comps w h content = Except.ok (img, acts)) :
    img.wf := by
  unfold decodeStage at hd
  split at hd
  · cases hl : C.loadFromMemory content with
    | none => rw [hl] at hd; simp at hd
    | some i =>
      rw [hl] at hd
      simp only [Except.ok.injEq, Prod.mk.injEq] at hd
      rw [← hd.1]
      exact hC.load_wf _ _ hl
  · split at hd
    · cases hf : fromRawData w h 1 content with
      | some d =>
        rw [hf] at hd
        simp only [Except.ok.injEq, Prod.mk.injEq] at hd
        rw [← hd.1]
        exact luma_wf_of_len _ _ _ (fromRawData_length _ _ _ _ _ hf)
      | none =>
        rw [hf] at hd
        cases hl : C.loadFromMemory content with
        | none => rw [hl] at hd; simp at hd
        | some i =>
          rw [hl] at hd
          simp only [Except.ok.injEq, Prod.mk.injEq] at hd
          rw [← hd.1]
          exact toLuma8_wf _ (hC.load_wf _ _ hl)
    · cases hf : fromRawData w h 3 content with
      | some d =>
        rw [hf] at hd
        simp only [Except.ok.injEq, Prod.mk.injEq] at hd
        rw [← hd.1]
        exact rgb_wf_of_len _ _ _ (fromRawData_length _ _ _ _ _ hf)
      | none =>
        rw [hf] at hd
        cases hl : C.loadFromMemory content with
        | none => rw [hl] at hd; simp at hd
        | some i =>
          rw [hl] at hd
          simp only [Except.ok.injEq, Prod.mk.injEq] at hd
          rw [← hd.1]
          exact toRgb8_wf _ (hC.load_wf _ _ hl)
    · cases hl : C.loadFromMemory content with
      | some i =>
        rw [hl] at hd
        simp only [Except.ok.injEq, Prod.mk.injEq] at hd
        rw [← hd.1]
        exact hC.load_wf _ _ hl
      | none =>
        rw [hl] at hd
        cases hf : fromRawData w h 3 (cmykToRgb content) with
        | some d =>
          rw [hf] at hd
          simp only [Except.ok.injEq, Prod.mk.injEq] at hd
          rw [← hd.1]
          exact rgb_wf_of_len _ _ _ (fromRawData_length _ _ _ _ _ hf)
        | none => rw [hf] at hd; simp at hd
    · simp at hd

theorem maskStage_wf (C : Codec) (doc : Document) (smaskId : Option ObjectId)
    (w h : Nat) (img0 img1 : Img) (acts : List String)
    (h0 : img0.wf)
    (hm : maskStage C doc smaskId w h img0 = Except.ok (img1, acts)) :
    img1.wf := by
  cases smaskId with
  | none =>
    simp only [maskStage, Except.ok.injEq, Prod.mk.injEq] at hm
    rw [← hm.1]
    exact h0
  | some sid =>
    simp only [maskStage] at hm
    split at hm
    · rename_i mdict mcontent heq
      cases hmc : decompress_stream C mdict mcontent with
      | error e => rw [hmc] at hm; simp at hm
      | ok mc =>
        rw [hmc] at hm
        dsimp only at hm
        split at hm
        · split at hm
          · simp at hm
          · simp only [Except.ok.injEq, Prod.mk.injEq] at hm
            rw [← hm.1]
            refine rgba_wf_of_len _ _ _ ?_
            rw [applyMaskAux_length, toRgba8_length _ h0]
            omega
        · simp only [Except.ok.injEq, Prod.mk.injEq] at hm
          rw [← hm.1]
          exact h0
    · simp at hm

theorem alphaPlane_length (i : Img) (h : i.wf) :
    (rgbaToAlphaPlane i.toRgba8).length = i.width * i.height := by
  rw [rgbaToAlphaPlane_length, toRgba8_length _ h]
  omega

theorem resizeStage_wf (C : Codec) (m : Nat) (img : Img) (hC : CodecWF C)
    (h : img.wf) : (resizeStage C m img).1.wf := by
  unfold resizeStage
  split
  · exact hC.resize_wf _ _ h
  · exact h

/-- C5: in the transparent path, the mask stream's new content is the
deflate of the alpha plane split off the final RGBA buffer; inflating it
recovers exactly those alpha samples, whose count equals the product of the
`Width` and `Height` written into the mask dictionary (lossless
round trip). -/
theorem c5_alpha_roundtrip (C : Codec) (doc : Document) (oid sid : ObjectId)
    (q m : Nat) (s : String) (sdict0 : Dict) (c0 : Bytes)
    (hC : CodecWF C)
    (h0 : doc.get oid = some (Object.stream sdict0 c0))
    (hsm0 : smaskRefOf sdict0 = some sid)
    (hok : (process_image_object C doc oid q m).2 = Except.ok s) :
    ∃ (d : Dict) (imgF : Img),
      (process_image_object C doc oid q m).1.get sid =
        some (Object.stream d (C.deflate (rgbaToAlphaPlane imgF.toRgba8))) ∧
      C.inflate (C.deflate (rgbaToAlphaPlane imgF.toRgba8)) =
        some (rgbaToAlphaPlane imgF.toRgba8) ∧
      (rgbaToAlphaPlane imgF.toRgba8).length = imgF.width * imgF.height ∧
      dictGet d (bs "Width") = some (Object.integer imgF.width) ∧
      dictGet d (bs "Height") = some (Object.integer imgF.height) := by
  obtain ⟨sd', c0', w, hh, comps, content, acts0, img0, acts1, img1, acts2,
    heq, hex, hdec, hmask, hproc⟩ := process_ok_inv C doc oid q m s hok
  rw [h0] at heq
  simp only [Option.some.injEq, Object.stream.injEq] at heq
  obtain ⟨hsd, _⟩ := heq
  subst hsd
  obtain ⟨sdict1, scontent1, hget1, _, _, _, _⟩ :=
    extractStage_ok_inv C (resolveStage doc oid) oid w hh comps content
      acts0 hex
  rw [hsm0] at hproc hmask
  rw [hproc] at hok
  obtain ⟨buffer, hj, hs, henc⟩ := encodeStage_some_ok C
    (resolveStage doc oid) oid sid q (resizeStage C m img1).1
    (acts0 ++ acts1 ++ acts2 ++ (resizeStage C m img1).2) s hok
  obtain ⟨mdict, mcontent, mc, hgetsid, _, _⟩ :=
    maskStage_some_inv C (resolveStage doc oid) sid w hh img0 img1
      acts2 hmask
  have hwf0 : img0.wf := decodeStage_wf C comps w hh content img0 acts1 hC hdec
  have hwf1 : img1.wf :=
    maskStage_wf C (resolveStage doc oid) (some sid) w hh img0 img1 acts2
      hwf0 hmask
  have hwfF : (resizeStage C m img1).1.wf := resizeStage_wf C m img1 hC hwf1
  by_cases hso : sid = oid
  · subst hso
    have hfin : (process_image_object C doc sid q m).1.get sid =
        some (Object.stream
          (maskDictT (imgDictT sdict1 buffer.length
              (resizeStage C m img1).1.width
              (resizeStage C m img1).1.height)
            (C.deflate (rgbaToAlphaPlane (resizeStage C m img1).1.toRgba8)).length
            (resizeStage C m img1).1.width
            (resizeStage C m img1).1.height)
          (C.deflate (rgbaToAlphaPlane (resizeStage C m img1).1.toRgba8))) := by
      rw [hproc, henc]
      exact get_modify_stream_eq _ _ _ _ _
        (get_modify_stream_eq _ _ _ _ _ hget1)
    exact ⟨_, (resizeStage C m img1).1, hfin,
      hC.inflate_deflate _, alphaPlane_length _ hwfF,
      (maskDictT_facts _ _ _ _).2.2.1, (maskDictT_facts _ _ _ _).2.2.2.1⟩
  · have hpre : ((resolveStage doc oid).modifyStream oid fun d _ =>
          (imgDictT d buffer.length (resizeStage C m img1).1.width
            (resizeStage C m img1).1.height, buffer)).get sid =
        some (Object.stream mdict mcontent) := by
      rw [get_modifyStream_ne _ _ _ _ hso]
      exact hgetsid
    have hmsk : (process_image_object C doc oid q m).1.get sid =
        some (Object.stream
          (maskDictT mdict
            (C.deflate (rgbaToAlphaPlane (resizeStage C m img1).1.toRgba8)).length
            (resizeStage C m img1).1.width
            (resizeStage C m img1).1.height)
          (C.deflate (rgbaToAlphaPlane (resizeStage C m img1).1.toRgba8))) := by
      rw [hproc, henc]
      exact get_modify_stream_eq _ _ _ _ _ hpre
    exact ⟨_, (resizeStage C m img1).1, hmsk,
      hC.inflate_deflate _, alphaPlane_length _ hwfF,
      (maskDictT_facts _ _ _ _).2.2.1, (maskDictT_facts _ _ _ _).2.2.2.1⟩

/-- C1 amended: when the mask's dictionary dimensions differ from the
image's, only the compositing step is skipped — the buffer entering
re-encode is the uncomposited decode result — but re-encoding still takes
the alpha-split path: the split action is recorded in the result string and
the mask object is rewritten (deflated alpha plane as content, FlateDecode
filter, fresh Length), exactly as in the matched case. -/
theorem c1_mismatched_mask_still_rewritten (C : Codec) (doc : Document)
    (oid sid : ObjectId) (q m : Nat) (s : String) (sdict0 : Dict)
    (c0 : Bytes) (mdict : Dict) (mcontent mc : Bytes)
    (w hh comps : Nat) (content : Bytes) (acts0 : List String)
    (h0 : doc.get oid = some (Object.stream sdict0 c0))
    (hsm0 : smaskRefOf sdict0 = some sid)
    (hget : (resolveStage doc oid).get sid = some (Object.stream mdict mcontent))
    (hdecm : decompress_stream C mdict mcontent = Except.ok mc)
    (hex : extractStage C (resolveStage doc oid) oid =
      Except.ok (w, hh, comps, content, acts0))
    (hmm : ¬ (dimOf mdict (bs "Width") = w ∧ dimOf mdict (bs "Height") = hh))
    (hok : (process_image_object C doc oid q m).2 = Except.ok s) :
    ∃ img0 acts1,
      decodeStage C comps w hh content = Except.ok (img0, acts1) ∧
      s = String.intercalate ", "
        ((acts0 ++ acts1 ++ ["applied SMask"] ++ (resizeStage C m img0).2) ++
          ["re-encode: Split RGB(JPEG) + Alpha(Flate)"]) ∧
      ∃ d, (process_image_object C doc oid q m).1.get sid =
        some (Object.stream d
          (C.deflate (rgbaToAlphaPlane (resizeStage C m img0).1.toRgba8))) ∧
        dictGet d (bs "Filter") = some (Object.name (bs "FlateDecode")) ∧
        dictGet d (bs "Length") = some (Object.integer
          (C.deflate (rgbaToAlphaPlane (resizeStage C m img0).1.toRgba8)).length) := by
  obtain ⟨sd', c0', w', hh', comps', content', acts0', img0, acts1, img1,
    acts2, heq, hex', hdec, hmask, hproc⟩ := process_ok_inv C doc oid q m s hok
  rw [h0] at heq
  simp only [Option.some.injEq, Object.stream.injEq] at heq
  obtain ⟨hsd, _⟩ := heq
  subst hsd
  rw [hex] at hex'
  simp only [Except.ok.injEq, Prod.mk.injEq] at hex'
  obtain ⟨hw, hhh, hcomps, hcontent, hacts0⟩ := hex'
  subst hw; subst hhh; subst hcomps; subst hcontent; subst hacts0
  rw [hsm0] at hproc hmask
  rw [maskStage_mismatch C (resolveStage doc oid) sid w hh img0 mdict
    mcontent mc hget hdecm hmm] at hmask
  simp only [Except.ok.injEq, Prod.mk.injEq] at hmask
  obtain ⟨himg1, hacts2⟩ := hmask
  subst himg1; subst hacts2
  rw [hproc] at hok
  obtain ⟨buffer, hj, hs, henc⟩ := encodeStage_some_ok C
    (resolveStage doc oid) oid sid q (resizeStage C m img0).1
    (acts0 ++ acts1 ++ ["applied SMask"] ++ (resizeStage C m img0).2) s hok
  obtain ⟨sdict1, scontent1, hget1, _, _, _, _⟩ :=
    extractStage_ok_inv C (resolveStage doc oid) oid w hh comps content
      acts0 hex
  refine ⟨img0, acts1, hdec, hs, ?_⟩
  by_cases hso : sid = oid
  · subst hso
    refine ⟨maskDictT (imgDictT sdict1 buffer.length
        (resizeStage C m img0).1.width (resizeStage C m img0).1.height)
        (C.deflate (rgbaToAlphaPlane (resizeStage C m img0).1.toRgba8)).length
        (resizeStage C m img0).1.width (resizeStage C m img0).1.height,
      ?_, (maskDictT_facts _ _ _ _).2.1, (maskDictT_facts _ _ _ _).1⟩
    rw [hproc, henc]
    exact get_modify_stream_eq _ _ _ _ _
      (get_modify_stream_eq _ _ _ _ _ hget1)
  · have hpre : ((resolveStage doc oid).modifyStream oid fun d _ =>
        (imgDictT d buffer.length (resizeStage C m img0).1.width
          (resizeStage C m img0).1.height, buffer)).get sid =
        some (Object.stream mdict mcontent) := by
      rw [get_modifyStream_ne _ _ _ _ hso]
      exact hget
    refine ⟨maskDictT mdict
        (C.deflate (rgbaToAlphaPlane (resizeStage C m img0).1.toRgba8)).length
        (resizeStage C m img0).1.width (resizeStage C m img0).1.height,
      ?_, (maskDictT_facts _ _ _ _).2.1, (maskDictT_facts _ _ _ _).1⟩
    rw [hproc, henc]
    exact get_modify_stream_eq _ _ _ _ _ hpre

/-- C2 amended: when per-image processing returns an error, the image
stream's content bytes are exactly as they were before processing began,
and every other object is untouched; the dictionary, however, is the
original with its `Filter`/`DecodeParms` indirect references already
resolved in place (the resolver runs and writes back before any failing
step). -/
theorem c2_error_atomicity (C : Codec) (doc : Document) (oid : ObjectId)
    (q m : Nat) (e : String)
    (h : (process_image_object C doc oid q m).2 = Except.error e) :
    (process_image_object C doc oid q m).1 = resolveStage doc oid ∧
    streamContentOf ((process_image_object C doc oid q m).1.get oid) =
      streamContentOf (doc.get oid) ∧
    ∀ id2, id2 ≠ oid →
      (process_image_object C doc oid q m).1.get id2 = doc.get id2 := by
  have h1 := process_error_doc C doc oid q m e h
  exact ⟨h1, by rw [h1, resolveStage_content],
    fun id2 hne => by rw [h1, resolveStage_get_ne _ _ _ hne]⟩

/-- C6: for a non-JPEG stream whose primary decompression fails, the
decoder falls back to a direct zlib inflate of the raw bytes exactly when
the `Filter` entry is the single Name `FlateDecode` (erroring only if that
inflate also fails), and fails with a decode error for every other filter
shape. -/
theorem c6_decoder_fallback (C : Codec) (sdict : Dict) (content : Bytes)
    (hp : C.primaryDecompress sdict content = none) :
    (dictGet sdict (bs "Filter") = some (Object.name (bs "FlateDecode")) →
      decompress_stream C sdict content =
        match C.inflate content with
        | some b => Except.ok b
        | none => Except.error "Manual zlib failed") ∧
    (dictGet sdict (bs "Filter") ≠ some (Object.name (bs "FlateDecode")) →
      ∃ e, decompress_stream C sdict content = Except.error e) := by
  unfold decompress_stream
  rw [hp]
  dsimp only
  constructor
  · intro hf
    rw [hf]
    simp
  · intro hf
    split
    · rename_i n heq
      by_cases hb : (n == bs "FlateDecode") = true
      · have hn : n = bs "FlateDecode" := by simpa using hb
        subst hn
        exact absurd heq hf
      · rw [if_neg (by simpa using hb)]
        exact ⟨_, rfl⟩
    · exact ⟨_, rfl⟩

/-- C7: for an image stream whose filter chain names `DCTDecode` (single
Name or array element), a primary-decompressor failure is not an error:
the untouched raw content bytes are returned and the extraction stage
succeeds, so processing of the image continues. -/
theorem c7_jpeg_passthrough (C : Codec) (sdict : Dict) (content : Bytes)
    (doc : Document) (oid : ObjectId)
    (hj : isJpegFilter (dictGet sdict (bs "Filter")) = true)
    (hp : C.primaryDecompress sdict content = none)
    (hd : doc.get oid = some (Object.stream sdict content)) :
    extractContent C sdict content = Except.ok content ∧
    extractStage C doc oid = Except.ok
      (dimOf sdict (bs "Width"), dimOf sdict (bs "Height"),
       componentCount (colorSpaceOf sdict) (dimOf sdict (bs "Width"))
         (dimOf sdict (bs "Height")) content.length,
       content, ["was JPEG"]) := by
  have h1 : extractContent C sdict content = Except.ok content := by
    unfold extractContent
    rw [if_pos hj, hp]
    rfl
  refine ⟨h1, ?_⟩
  unfold extractStage
  rw [hd]
  dsimp only
  rw [h1]
  dsimp only
  rw [if_pos hj]

theorem componentCount_cases (cs : Option Bytes) (w h len : Nat) :
    componentCount cs w h len = 1 ∨ componentCount cs w h len = 3 ∨
      componentCount cs w h len = 4 := by
  unfold componentCount
  cases cs with
  | none =>
    dsimp only
    by_cases h1 : len = w * h % 2 ^ 32
    · rw [if_pos h1]; simp
    · rw [if_neg h1]
      by_cases h2 : len = w * h * 3 % 2 ^ 32
      · rw [if_pos h2]; simp
      · rw [if_neg h2]
        by_cases h3 : len = w * h * 4 % 2 ^ 32
        · rw [if_pos h3]; simp
        · rw [if_neg h3]; simp
  | some n =>
    dsimp only
    by_cases h1 : (n == bs "DeviceGray") = true
    · rw [if_pos h1]; simp
    · rw [if_neg h1]
      by_cases h2 : (n == bs "DeviceRGB") = true
      · rw [if_pos h2]; simp
      · rw [if_neg h2]
        by_cases h3 : (n == bs "DeviceCMYK") = true
        · rw [if_pos h3]; simp
        · rw [if_neg h3]; simp

/-- C10: the component-count heuristic always yields 1, 3 or 4; hence the
`components == 0` generic-decoder branch and the unsupported-components
error branch of the sample interpreter are unreachable. -/
theorem c10_component_count_safe : ∀ (cs : Option Bytes) (w h len : Nat),
    (componentCount cs w h len = 1 ∨ componentCount cs w h len = 3 ∨
      componentCount cs w h len = 4) ∧
    componentCount cs w h len ≠ 0 ∧
    ∀ (C : Codec) (content : Bytes),
      decodeStage C (componentCount cs w h content.length) w h content ≠
        Except.error ("Unsupported components " ++
          toString (componentCount cs w h content.length)) := by
  intro cs w h len
  refine ⟨componentCount_cases cs w h len, ?_, ?_⟩
  · rcases componentCount_cases cs w h len with hc | hc | hc <;> omega
  · intro C content
    rcases componentCount_cases cs w h content.length with hc | hc | hc <;>
      rw [hc] <;> intro hcon
    · have e1 : decodeStage C 1 w h content =
          (match fromRawData w h 1 content with
           | some d => Except.ok (Img.luma w h d, [])
           | none =>
             match C.loadFromMemory content with
             | some i => Except.ok (i.toLuma8, [])
             | none => Except.error "Failed Gray") := rfl
      rw [e1] at hcon
      split at hcon
      · simp at hcon
      · split at hcon
        · simp at hcon
        · simp only [Except.error.injEq] at hcon
          exact absurd hcon (by decide)
    · have e3 : decodeStage C 3 w h content =
          (match fromRawData w h 3 content with
           | some d => Except.ok (Img.rgb w h d, [])
           | none =>
             match C.loadFromMemory content with
             | some i => Except.ok (i.toRgb8, [])
             | none => Except.error "Failed RGB") := rfl
      rw [e3] at hcon
      split at hcon
      · simp at hcon
      · split at hcon
        · simp at hcon
        · simp only [Except.error.injEq] at hcon
          exact absurd hcon (by decide)
    · have e4 : decodeStage C 4 w h content =
          (match C.loadFromMemory content with
           | some i => Except.ok (i, ["CMYK->RGB"])
           | none =>
             match fromRawData w h 3 (cmykToRgb content) with
             | some d => Except.ok (Img.rgb w h d, ["CMYK->RGB"])
             | none => Except.error "Failed CMYK->RGB") := rfl
      rw [e4] at hcon
      split at hcon
      · simp at hcon
      · split at hcon
        · simp at hcon
        · simp only [Except.error.injEq] at hcon
          exact absurd hcon (by decide)

/-! ### Exhaustive verification layer for the CMYK channel bounds -/

theorem forceN_eq {α : Sort u} (n : Nat) (f : Nat → α) : forceN n f = f n := by
  cases n <;> rfl

theorem rowWalk_sound (a : Nat) (u : Nat × Nat) :
    ∀ (vs : List (Nat × Nat)) (k : Nat),
      rowWalk a u vs k = true →
      ∀ (i : Nat) (h : i < vs.length),
        pairOk2 a (k + i) u (vs.get ⟨i, h⟩) = true
  | [], _, _, _, h => absurd h (by simp)
  | v :: vs, k, hw, 0, h => by
    have hw2 : (pairOk2 a k u v && rowWalk a u vs (k + 1)) = true := hw
    rw [Bool.and_eq_true] at hw2
    simpa using hw2.1
  | v :: vs, k, hw, i + 1, h => by
    have hw2 : (pairOk2 a k u v && rowWalk a u vs (k + 1)) = true := hw
    rw [Bool.and_eq_true] at hw2
    have hr := rowWalk_sound a u vs (k + 1) hw2.2 i (by simpa using h)
    have harith : k + 1 + i = k + (i + 1) := by omega
    rw [harith] at hr
    exact hr

theorem natRecAll_sound (g : Nat → Bool) :
    ∀ n : Nat,
      (Nat.rec (motive := fun _ => Bool) true (fun i ih => g i && ih) n) =
        true →
      ∀ i, i < n → g i = true
  | 0, _, _, hi => absurd hi (by omega)
  | n + 1, h, i, hi => by
    have h2 : (g n &&
        Nat.rec (motive := fun _ => Bool) true (fun i ih => g i && ih) n) =
        true := h
    rw [Bool.and_eq_true] at h2
    by_cases he : i = n
    · subst he
      exact h2.1
    · exact natRecAll_sound g n h2.2 i (by omega)

theorem uTable_len : uTable.length = 256 := by rfl

theorem uTable_eq_uList : uTable = uList := by decide!

theorem uTable_get (k : Nat) (hk : k < uTable.length) :
    uTable.get ⟨k, hk⟩ = mkU k := by
  rw [List.get_eq_getElem]
  have he : uTable = (List.range 256).map mkU := uTable_eq_uList
  simp only [he, List.getElem_map, List.getElem_range]

/-! ### The sixteen 16-row blocks of the exhaustive 256×256 check -/

theorem cmykBlk0 : rowsOkFrom 0 16 = true := by decide!

theorem cmykBlk1 : rowsOkFrom 16 16 = true := by decide!

theorem cmykBlk2 : rowsOkFrom 32 16 = true := by decide!

theorem cmykBlk3 : rowsOkFrom 48 16 = true := by decide!

theorem cmykBlk4 : rowsOkFrom 64 16 = true := by decide!

theorem cmykBlk5 : rowsOkFrom 80 16 = true := by decide!

theorem cmykBlk6 : rowsOkFrom 96 16 = true := by decide!

theorem cmykBlk7 : rowsOkFrom 112 16 = true := by decide!

theorem cmykBlk8 : rowsOkFrom 128 16 = true := by decide!

theorem cmykBlk9 : rowsOkFrom 144 16 = true := by decide!

theorem cmykBlk10 : rowsOkFrom 160 16 = true := by decide!

theorem cmykBlk11 : rowsOkFrom 176 16 = true := by decide!

theorem cmykBlk12 : rowsOkFrom 192 16 = true := by decide!

theorem cmykBlk13 : rowsOkFrom 208 16 = true := by decide!

theorem cmykBlk14 : rowsOkFrom 224 16 = true := by decide!

theorem cmykBlk15 : rowsOkFrom 240 16 = true := by decide!

/-- C8 counterexample input: at (C,M,Y,K) = (0,0,0,65) the code's binary32
evaluation yields channel 189, while the exact formula value
(1-0)·(1-65/255)·255 is exactly 190, whose truncation is 190. -/
theorem c8_counterexample :
    cmykChannel 0 65 = 189 ∧
    cmykToRgb [0, 0, 0, 65] = [189, 189, 189] ∧
    (1 - (0 : ℚ) / 255) * (1 - (65 : ℚ) / 255) * 255 = 190 ∧
    (189 : Nat) ≠ 190 :=
  ⟨rfl, rfl, by norm_num, by decide⟩

/-- C8 amended: each output channel of the fallback CMYK conversion is the
binary32 evaluation of `(1-C)(1-K)·255` truncated to a byte, which always
lies within one below the exactly-truncated real product:
`(255-a)(255-k)/255 − 1 ≤ channel ≤ (255-a)(255-k)/255`; in particular the
two quoted vectors hold exactly. -/
theorem c8_cmyk_bounds (a k : Nat) (ha : a ≤ 255) (hk : k ≤ 255) :
    ((255 - a) * (255 - k) / 255 - 1 ≤ cmykChannel a k ∧
     cmykChannel a k ≤ (255 - a) * (255 - k) / 255) ∧
    cmykToRgb [0, 0, 0, 255] = [0, 0, 0] ∧
    cmykToRgb [0, 0, 0, 0] = [255, 255, 255] := by
  refine ⟨?_, rfl, rfl⟩
  have hrow : rowWalk a (mkU a) uTable 0 = true := by
    have hq : a / 16 = 0 ∨ a / 16 = 1 ∨ a / 16 = 2 ∨ a / 16 = 3 ∨
        a / 16 = 4 ∨ a / 16 = 5 ∨ a / 16 = 6 ∨ a / 16 = 7 ∨ a / 16 = 8 ∨
        a / 16 = 9 ∨ a / 16 = 10 ∨ a / 16 = 11 ∨ a / 16 = 12 ∨
        a / 16 = 13 ∨ a / 16 = 14 ∨ a / 16 = 15 := by omega
    have hr : a % 16 < 16 := by omega
    have key : rowsOkFrom (16 * (a / 16)) 16 = true := by
      rcases hq with h|h|h|h|h|h|h|h|h|h|h|h|h|h|h|h <;> rw [h]
      · exact cmykBlk0
      · exact cmykBlk1
      · exact cmykBlk2
      · exact cmykBlk3
      · exact cmykBlk4
      · exact cmykBlk5
      · exact cmykBlk6
      · exact cmykBlk7
      · exact cmykBlk8
      · exact cmykBlk9
      · exact cmykBlk10
      · exact cmykBlk11
      · exact cmykBlk12
      · exact cmykBlk13
      · exact cmykBlk14
      · exact cmykBlk15
    have h2 := natRecAll_sound
      (fun i => rowWalk (16 * (a / 16) + i) (mkU (16 * (a / 16) + i))
        uTable 0) 16 key (a % 16) hr
    dsimp only at h2
    have hae : 16 * (a / 16) + a % 16 = a := by omega
    rw [hae] at h2
    exact h2
  have hk2 : k < uTable.length := by rw [uTable_len]; omega
  have hp := rowWalk_sound a (mkU a) uTable 0 hrow k hk2
  rw [uTable_get k hk2] at hp
  rw [Nat.zero_add] at hp
  unfold pairOk2 at hp
  rw [forceN_eq, forceN_eq, Bool.and_eq_true, Nat.ble_eq, Nat.ble_eq] at hp
  exact hp

/-! ### Driver lemmas -/

theorem driver_trace_sublist (C : Codec) (q m : Nat) :
    ∀ (ks : List ObjectId) (doc : Document) (ps : List ObjectId),
      ((driver C q m ks doc ps).2.map Prod.fst).Sublist ks
  | [], _, _ => by simp [driver]
  | oid :: rest, doc, ps => by
    unfold driver
    by_cases hmem : oid ∈ ps
    · rw [if_pos hmem]
      exact (driver_trace_sublist C q m rest doc ps).cons oid
    · rw [if_neg hmem]
      dsimp only
      by_cases himg : (classify doc oid).1 = true
      · rw [if_pos himg]
        dsimp only
        simpa using (driver_trace_sublist C q m rest _ _).cons₂ oid
      · rw [if_neg himg]
        exact (driver_trace_sublist C q m rest doc ps).cons oid

theorem driver_processed_not_in_trace (C : Codec) (q m : Nat) :
    ∀ (ks : List ObjectId) (doc : Document) (ps : List ObjectId) (p : ObjectId),
      p ∈ ps → p ∉ (driver C q m ks doc ps).2.map Prod.fst
  | [], _, _, _, _ => by simp [driver]
  | oid :: rest, doc, ps, p, hp => by
    unfold driver
    by_cases hmem : oid ∈ ps
    · rw [if_pos hmem]
      exact driver_processed_not_in_trace C q m rest doc ps p hp
    · rw [if_neg hmem]
      dsimp only
      by_cases himg : (classify doc oid).1 = true
      · rw [if_pos himg]
        dsimp only
        simp only [List.map_cons, List.mem_cons, not_or]
        constructor
        · intro hpe
          subst hpe
          exact hmem hp
        · refine driver_processed_not_in_trace C q m rest _ _ p ?_
          cases hc2 : (classify doc oid).2 with
          | none => exact List.mem_cons_of_mem _ hp
          | some sid =>
            exact List.mem_cons_of_mem _ (List.mem_cons_of_mem _ hp)
      · rw [if_neg himg]
        exact driver_processed_not_in_trace C q m rest doc ps p hp

theorem driver_mask_not_resubmitted (C : Codec) (q m : Nat) :
    ∀ (ks : List ObjectId) (doc : Document) (ps : List ObjectId)
      (t1 : List (ObjectId × Option ObjectId)) (o sid : ObjectId)
      (t2 : List (ObjectId × Option ObjectId)),
      (driver C q m ks doc ps).2 = t1 ++ (o, some sid) :: t2 →
      sid ∉ t2.map Prod.fst
  | [], _, _, t1, _, _, _ => by
    intro h
    simp [driver] at h
  | oid :: rest, doc, ps, t1, o, sid, t2 => by
    intro h
    unfold driver at h
    by_cases hmem : oid ∈ ps
    · rw [if_pos hmem] at h
      exact driver_mask_not_resubmitted C q m rest doc ps t1 o sid t2 h
    · rw [if_neg hmem] at h
      dsimp only at h
      by_cases himg : (classify doc oid).1 = true
      · rw [if_pos himg] at h
        dsimp only at h
        cases t1 with
        | nil =>
          simp only [List.nil_append, List.cons.injEq, Prod.mk.injEq] at h
          obtain ⟨⟨hoe, hsme⟩, ht2⟩ := h
          rw [← ht2]
          refine driver_processed_not_in_trace C q m rest _ _ sid ?_
          rw [hsme]
          exact List.mem_cons_of_mem _ (List.mem_cons_self _ _)
        | cons x t1' =>
          simp only [List.cons_append, List.cons.injEq] at h
          exact driver_mask_not_resubmitted C q m rest _ _ t1' o sid t2 h.2
      · rw [if_neg himg] at h
        exact driver_mask_not_resubmitted C q m rest doc ps t1 o sid t2 h

/-- C9: in one conversion pass the driver submits each object identifier to
the per-image pipeline at most once (the submission trace has no
duplicates), and an identifier recorded as the claimed soft mask of an
owning image is never afterwards submitted for independent top-level
processing. -/
theorem c9_driver_unique_submission (C : Codec) (q m : Nat) (doc : Document)
    (hnd : (doc.objects.map Prod.fst).Nodup) :
    ((compress_pdf_driver C doc q m).2.map Prod.fst).Nodup ∧
    ∀ t1 o sid t2, (compress_pdf_driver C doc q m).2 =
        t1 ++ (o, some sid) :: t2 →
      sid ∉ t2.map Prod.fst := by
  constructor
  · exact List.Nodup.sublist
      (driver_trace_sublist C q m (doc.objects.map Prod.fst) doc []) hnd
  · intro t1 o sid t2 h
    exact driver_mask_not_resubmitted C q m (doc.objects.map Prod.fst)
      doc [] t1 o sid t2 h

/-! ### Counterexamples -/

/-- C1 counterexample: in `docC1` the image is 1×1 and its `SMask` points
at a 2×1 mask.  Processing succeeds, the alpha-split re-encode action is
recorded, and the mask object's content is overwritten (from `[5, 6]` to
the deflated all-opaque alpha plane `[255]`) with a rewritten dictionary —
so the image is not written as a single opaque stream and the mismatched
mask is not left unchanged. -/
theorem c1_counterexample :
    (streamDictOf (docC1.get (1, 0))).map (fun d => dimOf d (bs "Width")) =
      some 1 ∧
    (streamDictOf (docC1.get (2, 0))).map (fun d => dimOf d (bs "Width")) =
      some 2 ∧
    (process_image_object okCodec docC1 (1, 0) 50 1500).2 =
      Except.ok
        "applied SMask, keep dims 1x1, re-encode: Split RGB(JPEG) + Alpha(Flate)" ∧
    streamContentOf (docC1.get (2, 0)) = some [5, 6] ∧
    streamContentOf
      ((process_image_object okCodec docC1 (1, 0) 50 1500).1.get (2, 0)) =
      some [255] ∧
    streamKeyOf
      ((process_image_object okCodec docC1 (1, 0) 50 1500).1.get (2, 0))
      (bs "Filter") = some (Object.name (bs "FlateDecode")) ∧
    ([5, 6] : Bytes) ≠ [255] :=
  ⟨rfl, rfl, rfl, rfl, rfl, rfl, by decide⟩

/-- C2 counterexample: in `docC2` the image's `Filter` is an indirect
reference and its payload defeats both decompressors.  Processing fails,
the content bytes survive, but the dictionary is not exactly as before:
the `Filter` entry was rewritten from the reference `(3,0)` to the
resolved Name `FlateDecode` before the decode failed. -/
theorem c2_counterexample :
    (process_image_object failCodec docC2 (1, 0) 50 1500).2 =
      Except.error "Manual zlib failed" ∧
    streamContentOf
      ((process_image_object failCodec docC2 (1, 0) 50 1500).1.get (1, 0)) =
      some [9] ∧
    streamKeyOf (docC2.get (1, 0)) (bs "Filter") =
      some (Object.reference (3, 0)) ∧
    streamKeyOf
      ((process_image_object failCodec docC2 (1, 0) 50 1500).1.get (1, 0))
      (bs "Filter") = some (Object.name (bs "FlateDecode")) ∧
    Object.reference (3, 0) ≠ Object.name (bs "FlateDecode") :=
  ⟨rfl, rfl, rfl, rfl, fun h => Object.noConfusion h⟩

/-- C3 counterexample: `docC3` is an opaque image carrying a `Decode`
array.  Processing succeeds through the opaque path and the written
dictionary still contains the `Decode` entry — the opaque path removes
only `DecodeParms`. -/
theorem c3_counterexample :
    (process_image_object okCodec docC3 (1, 0) 50 1500).2 =
      Except.ok "keep dims 1x1, re-encode: JPEG(q=50)" ∧
    streamKeyOf
      ((process_image_object okCodec docC3 (1, 0) 50 1500).1.get (1, 0))
      (bs "Decode") =
      some (Object.array [Object.integer 1, Object.integer 0]) :=
  ⟨rfl, rfl⟩

/-! ### Witnesses -/

theorem okCodec_wf : CodecWF okCodec :=
  ⟨fun _ => rfl, fun _ _ h => Option.noConfusion h, fun _ _ h => h⟩

theorem c1_witness :
    ∃ img0 acts1,
      decodeStage okCodec 1 1 1 [7] = Except.ok (img0, acts1) ∧
      "applied SMask, keep dims 1x1, re-encode: Split RGB(JPEG) + Alpha(Flate)" =
        String.intercalate ", "
          (([] ++ acts1 ++ ["applied SMask"] ++
             (resizeStage okCodec 1500 img0).2) ++
           ["re-encode: Split RGB(JPEG) + Alpha(Flate)"]) ∧
      ∃ d, (process_image_object okCodec docC1 (1, 0) 50 1500).1.get (2, 0) =
        some (Object.stream d
          (okCodec.deflate
            (rgbaToAlphaPlane (resizeStage okCodec 1500 img0).1.toRgba8))) ∧
        dictGet d (bs "Filter") = some (Object.name (bs "FlateDecode")) ∧
        dictGet d (bs "Length") = some (Object.integer
          (okCodec.deflate
            (rgbaToAlphaPlane
              (resizeStage okCodec 1500 img0).1.toRgba8)).length) :=
  c1_mismatched_mask_still_rewritten okCodec docC1 (1, 0) (2, 0) 50 1500
    "applied SMask, keep dims 1x1, re-encode: Split RGB(JPEG) + Alpha(Flate)"
    [(bs "SMask", Object.reference (2, 0)),
     (bs "Width", Object.integer 1),
     (bs "Height", Object.integer 1),
     (bs "ColorSpace", Object.name (bs "DeviceGray"))] [7]
    [(bs "Width", Object.integer 2), (bs "Height", Object.integer 1)]
    [5, 6] [5, 6] 1 1 1 [7] []
    rfl rfl rfl rfl rfl (by decide) rfl

theorem c2_witness :
    (process_image_object failCodec docC2 (1, 0) 50 1500).1 =
      resolveStage docC2 (1, 0) ∧
    streamContentOf
      ((process_image_object failCodec docC2 (1, 0) 50 1500).1.get (1, 0)) =
      streamContentOf (docC2.get (1, 0)) ∧
    ∀ id2, id2 ≠ (1, 0) →
      (process_image_object failCodec docC2 (1, 0) 50 1500).1.get id2 =
        docC2.get id2 :=
  c2_error_atomicity failCodec docC2 (1, 0) 50 1500 "Manual zlib failed" rfl

theorem c3_witness :
    (∃ d c, (process_image_object okCodec docC3 (1, 0) 50 1500).1.get (1, 0) =
        some (Object.stream d c) ∧
        dictGet d (bs "DecodeParms") = none ∧
        (smaskRefOf [(bs "Width", Object.integer 1),
            (bs "Height", Object.integer 1),
            (bs "ColorSpace", Object.name (bs "DeviceGray")),
            (bs "Decode", Object.array [Object.integer 1, Object.integer 0])] ≠
            none →
          dictGet d (bs "Decode") = none)) ∧
    (∀ sid, smaskRefOf [(bs "Width", Object.integer 1),
        (bs "Height", Object.integer 1),
        (bs "ColorSpace", Object.name (bs "DeviceGray")),
        (bs "Decode", Object.array [Object.integer 1, Object.integer 0])] =
        some sid →
      ∃ d c, (process_image_object okCodec docC3 (1, 0) 50 1500).1.get sid =
        some (Object.stream d c) ∧
        dictGet d (bs "DecodeParms") = none ∧
        dictGet d (bs "Decode") = none) :=
  c3_stale_entries_removed okCodec docC3 (1, 0) 50 1500
    "keep dims 1x1, re-encode: JPEG(q=50)"
    [(bs "Width", Object.integer 1),
     (bs "Height", Object.integer 1),
     (bs "ColorSpace", Object.name (bs "DeviceGray")),
     (bs "Decode", Object.array [Object.integer 1, Object.integer 0])] [7]
    rfl rfl

theorem c4_witness :
    (∃ d c, (process_image_object okCodec docC5 (1, 0) 50 1500).1.get (1, 0) =
        some (Object.stream d c) ∧
        dictGet d (bs "Length") = some (Object.integer c.length)) ∧
    (∀ sid, smaskRefOf [(bs "SMask", Object.reference (2, 0)),
        (bs "Width", Object.integer 1),
        (bs "Height", Object.integer 1),
        (bs "ColorSpace", Object.name (bs "DeviceGray"))] = some sid →
      ∃ d c, (process_image_object okCodec docC5 (1, 0) 50 1500).1.get sid =
        some (Object.stream d c) ∧
        dictGet d (bs "Length") = some (Object.integer c.length)) :=
  c4_length_matches_content okCodec docC5 (1, 0) 50 1500
    "applied SMask, keep dims 1x1, re-encode: Split RGB(JPEG) + Alpha(Flate)"
    [(bs "SMask", Object.reference (2, 0)),
     (bs "Width", Object.integer 1),
     (bs "Height", Object.integer 1),
     (bs "ColorSpace", Object.name (bs "DeviceGray"))] [7]
    rfl rfl

theorem c5_witness :
    ∃ (d : Dict) (imgF : Img),
      (process_image_object okCodec docC5 (1, 0) 50 1500).1.get (2, 0) =
        some (Object.stream d
          (okCodec.deflate (rgbaToAlphaPlane imgF.toRgba8))) ∧
      okCodec.inflate (okCodec.deflate (rgbaToAlphaPlane imgF.toRgba8)) =
        some (rgbaToAlphaPlane imgF.toRgba8) ∧
      (rgbaToAlphaPlane imgF.toRgba8).length = imgF.width * imgF.height ∧
      dictGet d (bs "Width") = some (Object.integer imgF.width) ∧
      dictGet d (bs "Height") = some (Object.integer imgF.height) :=
  c5_alpha_roundtrip okCodec docC5 (1, 0) (2, 0) 50 1500
    "applied SMask, keep dims 1x1, re-encode: Split RGB(JPEG) + Alpha(Flate)"
    [(bs "SMask", Object.reference (2, 0)),
     (bs "Width", Object.integer 1),
     (bs "Height", Object.integer 1),
     (bs "ColorSpace", Object.name (bs "DeviceGray"))] [7]
    okCodec_wf rfl rfl rfl

theorem c6_witness :
    (dictGet [(bs "Filter", Object.name (bs "FlateDecode"))] (bs "Filter") =
        some (Object.name (bs "FlateDecode")) →
      decompress_stream failCodec
          [(bs "Filter", Object.name (bs "FlateDecode"))] [9] =
        match failCodec.inflate [9] with
        | some b => Except.ok b
        | none => Except.error "Manual zlib failed") ∧
    (dictGet [(bs "Filter", Object.name (bs "FlateDecode"))] (bs "Filter") ≠
        some (Object.name (bs "FlateDecode")) →
      ∃ e, decompress_stream failCodec
          [(bs "Filter", Object.name (bs "FlateDecode"))] [9] =
        Except.error e) :=
  c6_decoder_fallback failCodec
    [(bs "Filter", Object.name (bs "FlateDecode"))] [9] rfl

theorem c7_witness :
    extractContent failCodec
      [(bs "Filter", Object.name (bs "DCTDecode")),
       (bs "Width", Object.integer 1),
       (bs "Height", Object.integer 1)] [9] = Except.ok [9] ∧
    extractStage failCodec
      (⟨[((1, 0), Object.stream
          [(bs "Filter", Object.name (bs "DCTDecode")),
           (bs "Width", Object.integer 1),
           (bs "Height", Object.integer 1)] [9])]⟩ : Document) (1, 0) =
      Except.ok
        (dimOf [(bs "Filter", Object.name (bs "DCTDecode")),
            (bs "Width", Object.integer 1),
            (bs "Height", Object.integer 1)] (bs "Width"),
         dimOf [(bs "Filter", Object.name (bs "DCTDecode")),
            (bs "Width", Object.integer 1),
            (bs "Height", Object.integer 1)] (bs "Height"),
         componentCount
           (colorSpaceOf [(bs "Filter", Object.name (bs "DCTDecode")),
              (bs "Width", Object.integer 1),
              (bs "Height", Object.integer 1)])
           (dimOf [(bs "Filter", Object.name (bs "DCTDecode")),
              (bs "Width", Object.integer 1),
              (bs "Height", Object.integer 1)] (bs "Width"))
           (dimOf [(bs "Filter", Object.name (bs "DCTDecode")),
              (bs "Width", Object.integer 1),
              (bs "Height", Object.integer 1)] (bs "Height"))
           (List.length [9]),
         [9], ["was JPEG"]) :=
  c7_jpeg_passthrough failCodec
    [(bs "Filter", Object.name (bs "DCTDecode")),
     (bs "Width", Object.integer 1),
     (bs "Height", Object.integer 1)] [9]
    (⟨[((1, 0), Object.stream
        [(bs "Filter", Object.name (bs "DCTDecode")),
         (bs "Width", Object.integer 1),
         (bs "Height", Object.integer 1)] [9])]⟩ : Document) (1, 0)
    rfl rfl rfl

theorem c8_witness :
    (0 ≤ 255 ∧ 65 ≤ 255) ∧
    (((255 - 0) * (255 - 65) / 255 - 1 ≤ cmykChannel 0 65 ∧
      cmykChannel 0 65 ≤ (255 - 0) * (255 - 65) / 255) ∧
     cmykToRgb [0, 0, 0, 255] = [0, 0, 0] ∧
     cmykToRgb [0, 0, 0, 0] = [255, 255, 255]) :=
  ⟨by decide, c8_cmyk_bounds 0 65 (by decide) (by decide)⟩

theorem c9_witness :
    (docC9.objects.map Prod.fst).Nodup ∧
    (((compress_pdf_driver okCodec docC9 50 1500).2.map Prod.fst).Nodup ∧
     ∀ t1 o sid t2, (compress_pdf_driver okCodec docC9 50 1500).2 =
         t1 ++ (o, some sid) :: t2 →
       sid ∉ t2.map Prod.fst) :=
  ⟨by decide, c9_driver_unique_submission okCodec 50 1500 docC9 (by decide)⟩

end PdfC
